import Mathlib

/-!
ConnectionManager (src/js/webrtc/connection-manager.js).

A shallow embedding of the `ConnectionManager` class of the desktop controller.
The manager object is a record of its five fields; the browser around it (the
peer connections it has created, the `remote-screen` video element, the
`window.io` factory) is carried in a `World`, together with a chronological log
of every observable effect (calls into the browser, the socket and `notify`).

Asynchrony is explicit: `initializeConnection` runs up to its `await` and
reports whether it is parked there; the continuation is a function of its own,
run by the microtask queue after the current synchronous block has finished.
The `offer` and `ice-candidate` handlers are parked at each `await` on a
transport promise and resumed with the way that promise settles.
-/

/-- A JavaScript `Error` value; only its message is observed. -/
structure JsError where
  message : String
deriving DecidableEq, Repr

/-- The `connectionState` of an `RTCPeerConnection`. -/
inductive ConnState where
  | new
  | connecting
  | connected
  | disconnected
  | failed
  | closed
deriving DecidableEq, Repr

/-- The string a `connectionState` is printed as in a template literal. -/
def ConnState.toString : ConnState → String
  | .new => "new"
  | .connecting => "connecting"
  | .connected => "connected"
  | .disconnected => "disconnected"
  | .failed => "failed"
  | .closed => "closed"

/-- A `MediaStream`: an identity and the tracks `getTracks()` returns. -/
structure MediaStream where
  id : Nat
  tracks : List Nat
deriving DecidableEq, Repr

/-- The socket.io client object, as far as the manager reads it. -/
structure Socket where
  connected : Bool
deriving DecidableEq, Repr

/-- The message argument of `notify.error`: a string, or, when it was looked
up in an object literal under a key the literal does not define but
`Object.prototype` does, the inherited member of that name (a function or
object, not a string). -/
inductive Message where
  | text (s : String)
  | inherited (property : String)
deriving DecidableEq, Repr

/-- The names `Object.prototype` defines; every object literal inherits them,
each with a truthy value. -/
def objectPrototypeMembers : List String :=
  ["constructor", "__defineGetter__", "__defineSetter__", "hasOwnProperty",
    "__lookupGetter__", "__lookupSetter__", "isPrototypeOf", "propertyIsEnumerable",
    "toString", "valueOf", "__proto__", "toLocaleString"]

/-- The options object `window.io` is called with. -/
structure IoOptions where
  reconnection : Bool
  reconnectionAttempts : Nat
  reconnectionDelay : Nat
  timeout : Nat
  autoConnect : Bool
deriving DecidableEq, Repr

/-- Observable effects, in the order they happen. -/
inductive Effect where
  | io (serverUrl : String) (options : IoOptions)
  | socketOn (event : String)
  | socketEmit (event : String) (payload : String)
  | socketDisconnect
  | setTimeout (timer : Nat) (ms : Nat)
  | clearTimeout (timer : Nat)
  | timeoutFired (timer : Nat)
  | newRTCPeerConnection (pc : Nat)
  | pcSetHandlers (pc : Nat)
  | pcSetRemoteDescription (pc : Nat) (description : String)
  | pcCreateAnswer (pc : Nat)
  | pcSetLocalDescription (pc : Nat) (description : String)
  | pcAddIceCandidate (pc : Nat) (candidate : String)
  | pcClose (pc : Nat)
  | trackStop (track : Nat)
  | dispatchEvent (type : String)
  | notifyError (message : Message) (error : Option JsError)
  | notifyInfo (message : String)
  | notifySuccess (message : String)
deriving DecidableEq, Repr

/-- The fields of a `ConnectionManager` instance (constructor, lines 45-49). -/
structure ConnectionManager where
  peerConnection : Option Nat
  remoteStream : Option MediaStream
  socket : Option Socket
  connectionTimeout : Option Nat
  isConnecting : Bool
deriving DecidableEq, Repr

/-- The manager together with the browser state it acts on. -/
structure World where
  mgr : ConnectionManager
  /-- The `connectionState` property of each peer connection object. -/
  connectionState : Nat → ConnState
  /-- Identity of the next object `new RTCPeerConnection` returns. -/
  nextPc : Nat
  /-- Identity of the next timer `setTimeout` returns (positive, hence truthy). -/
  nextTimer : Nat
  /-- What `document.getElementById("remote-screen")` returns (`none` when the
  element is absent) and, when present, its `srcObject`. -/
  videoElement : Option (Option MediaStream)
  /-- The error `window.io` throws when called, if it throws. -/
  ioError : Option JsError
  log : List Effect

/-- How a synchronous function ends: it returns, or it throws. -/
inductive Outcome where
  | returned (w : World)
  | threw (error : JsError) (w : World)

/-- How the synchronous run of an async function ends: its promise is
fulfilled, it is rejected, or the function is parked at an `await`. -/
inductive Completion where
  | fulfilled (w : World)
  | rejected (error : JsError) (w : World)
  | awaiting (w : World)

/-- The world an outcome leaves behind. -/
def Outcome.world : Outcome → World
  | .returned w => w
  | .threw _ w => w

/-- The world a completion leaves behind. -/
def Completion.world : Completion → World
  | .fulfilled w => w
  | .rejected _ w => w
  | .awaiting w => w

namespace World

/-- Append one effect to the log. -/
def emit (e : Effect) (w : World) : World :=
  { w with log := w.log ++ [e] }

/-- The browser before any manager exists. -/
def initial (videoElement : Option (Option MediaStream)) (ioError : Option JsError) : World :=
  { mgr := ⟨none, none, none, none, false⟩
    connectionState := fun _ => .new
    nextPc := 0
    nextTimer := 1
    videoElement := videoElement
    ioError := ioError
    log := [] }

/-- Peer connections created so far, oldest first. -/
def created (w : World) : List Nat :=
  w.log.filterMap fun e => match e with
    | .newRTCPeerConnection pc => some pc
    | _ => none

/-- Peer connections on which `close()` has been called. -/
def closed (w : World) : List Nat :=
  w.log.filterMap fun e => match e with
    | .pcClose pc => some pc
    | _ => none

/-- Peer connections created and never closed. -/
def unclosed (w : World) : List Nat :=
  w.created.filter fun pc => decide (pc ∉ w.closed)

end World

namespace notify

/-- Lines 13-30: `notify.error(message, error)`. -/
def error (message : Message) (err : Option JsError) (w : World) : World :=
  w.emit (.notifyError message err)

/-- Lines 31-40: `notify.info(message)`. -/
def info (message : String) (w : World) : World :=
  w.emit (.notifyInfo message)

/-- Lines 3-12: `notify.success(message)`. -/
def success (message : String) (w : World) : World :=
  w.emit (.notifySuccess message)

end notify

namespace ConnectionManager

/-- The `this.socket?.connected` test of line 157. -/
def socketConnected (m : ConnectionManager) : Bool :=
  match m.socket with
  | some s => s.connected
  | none => false

/-- Lines 60-69. `parseURL` is the `URL` constructor of the host: it returns
the error it throws on a string it cannot parse. -/
def validateServerUrl (parseURL : String → Option JsError) (serverUrl : Option String) :
    Except JsError Unit :=
  match serverUrl with
  | none => .error ⟨"Server URL is required"⟩
  | some url =>
    if url = "" then .error ⟨"Server URL is required"⟩
    else match parseURL url with
      | some e => .error ⟨"Invalid server URL: " ++ e.message⟩
      | none => .ok ()

/-- Lines 182-220: the three `socket.on` registrations. -/
def _setupSocketHandlers (w : World) : World :=
  match w.mgr.socket with
  | none => w
  | some _ =>
    ((w.emit (.socketOn "offer")).emit (.socketOn "ice-candidate")).emit
      (.socketOn "device-disconnected")

/-- Lines 97-139: the seven `socket.on` registrations. -/
def _setupSocketErrorHandling (w : World) : World :=
  match w.mgr.socket with
  | none => w
  | some _ =>
    (((((((w.emit (.socketOn "connect_error")).emit (.socketOn "connect_timeout")).emit
      (.socketOn "reconnect_attempt")).emit (.socketOn "reconnect_failed")).emit
      (.socketOn "reconnect")).emit (.socketOn "disconnect")).emit (.socketOn "connect"))

/-- Lines 71-95. The options are the literal of lines 74-78. -/
def initializeSocket (serverUrl : String) (w : World) : Outcome :=
  let w := w.emit (.io serverUrl
    { reconnection := true, reconnectionAttempts := 5, reconnectionDelay := 1000,
      timeout := 5000, autoConnect := true })
  match w.ioError with
  | some e =>
    .threw e (notify.error (.text "Failed to initialize socket connection") (some e) w)
  | none =>
    let w := { w with mgr := { w.mgr with socket := some ⟨false⟩ } }
    let w := _setupSocketHandlers w
    let w := _setupSocketErrorHandling w
    let timer := w.nextTimer
    let w := { w.emit (.setTimeout timer 5000) with nextTimer := timer + 1 }
    .returned { w with mgr := { w.mgr with connectionTimeout := some timer } }

/-- Lines 44-58: `new ConnectionManager(serverUrl)`. `initializeSocket` is
reached only with a URL that passed validation, hence with a string. -/
def constructor (parseURL : String → Option JsError) (serverUrl : Option String)
    (w : World) : Outcome :=
  let w := { w with mgr := ⟨none, none, none, none, false⟩ }
  match validateServerUrl parseURL serverUrl with
  | .error e => .threw e (notify.error (.text "Failed to create connection manager") (some e) w)
  | .ok () =>
    match initializeSocket (serverUrl.getD "") w with
    | .threw e w =>
      .threw e (notify.error (.text "Failed to create connection manager") (some e) w)
    | .returned w => .returned w

/-- Lines 141-153. `disconnectMessages[reason]` finds the five keys of the
literal and, for any other key, what the literal inherits from
`Object.prototype`; only when both lookups give nothing is the template
string used. -/
def handleDisconnectReason (reason : String) (w : World) : World :=
  let message : Message :=
    if reason = "io server disconnect" then
      .text "Server has disconnected. Please reconnect manually."
    else if reason = "io client disconnect" then .text "Disconnected from server."
    else if reason = "ping timeout" then .text "Connection timed out due to network issues."
    else if reason = "transport close" then .text "Network connection lost."
    else if reason = "transport error" then .text "Network error occurred."
    else if reason ∈ objectPrototypeMembers then .inherited reason
    else .text ("Disconnected: " ++ reason)
  notify.error message none w

/-- Lines 264-286. No call inside the `try` throws in a browser
(`RTCPeerConnection.close`, `MediaStreamTrack.stop`, `getElementById`,
`dispatchEvent` and `notify.info` all return), so the `catch` is never
entered. `close()` sets the connection state to closed and fires no event. -/
def handleDisconnect (w : World) : World :=
  let w := match w.mgr.peerConnection with
    | some pc =>
      let w := { w.emit (.pcClose pc) with
        connectionState := Function.update w.connectionState pc .closed }
      { w with mgr := { w.mgr with peerConnection := none } }
    | none => w
  let w := match w.mgr.remoteStream with
    | some stream =>
      let w := stream.tracks.foldl (fun (w : World) track => w.emit (.trackStop track)) w
      { w with mgr := { w.mgr with remoteStream := none } }
    | none => w
  let w := match w.videoElement with
    | some _ => { w with videoElement := some none }
    | none => w
  let w := w.emit (.dispatchEvent "deviceDisconnected")
  notify.info "Disconnected from remote device" w

/-- The effects of one `handleDisconnect` on the world `w`, in the order of
lines 266-282: the close, the track stops, the event and the notification. -/
def handleDisconnectEffects (w : World) : List Effect :=
  (match w.mgr.peerConnection with
    | some pc => [Effect.pcClose pc]
    | none => []) ++
  (match w.mgr.remoteStream with
    | some stream => stream.tracks.map Effect.trackStop
    | none => []) ++
  [.dispatchEvent "deviceDisconnected", .notifyInfo "Disconnected from remote device"]

/-- Lines 222-262: the four callbacks are installed on the held connection. -/
def _setupPeerConnectionHandlers (w : World) : World :=
  match w.mgr.peerConnection with
  | none => w
  | some pc => w.emit (.pcSetHandlers pc)

/-- Lines 167-175: the part of `initializeConnection` after the `if` of line
163, which is also its continuation when it was parked at the `await`. -/
def initializeConnection_resume (w : World) : World :=
  let pc := w.nextPc
  let w := { w.emit (.newRTCPeerConnection pc) with
    nextPc := pc + 1
    connectionState := Function.update w.connectionState pc .new }
  let w := { w with mgr := { w.mgr with peerConnection := some pc } }
  let w := _setupPeerConnectionHandlers w
  notify.info "Initializing peer connection..." w

/-- Lines 155-180, up to the first suspension. `await this.handleDisconnect()`
runs `handleDisconnect` at once and parks the function, whatever the awaited
value is; the rest runs from the microtask queue. -/
def initializeConnection (w : World) : Completion :=
  if w.mgr.socketConnected then
    match w.mgr.peerConnection with
    | some _ => .awaiting (handleDisconnect w)
    | none => .fulfilled (initializeConnection_resume w)
  else
    let error : JsError :=
      ⟨"Not connected to server. Please ensure connection before initializing."⟩
    .rejected error (notify.error (.text "Failed to initialize peer connection") (some error) w)

/-- Lines 288-290. -/
def handleError (error : JsError) (context : String) (w : World) : World :=
  notify.error (.text context) (some error) w

/-- Lines 292-305. `socket.disconnect()` returns; the `catch` is never entered. -/
def destroy (w : World) : World :=
  let w := handleDisconnect w
  let w := match w.mgr.connectionTimeout with
    | some timer => w.emit (.clearTimeout timer)
    | none => w
  match w.mgr.socket with
  | some _ =>
    let w := w.emit .socketDisconnect
    { w with mgr := { w.mgr with socket := none } }
  | none => w

/-- The `ontrack` callback, lines 225-237; `stream` is `event.streams[0]`,
`none` when the event carries no stream. -/
def ontrack (stream : Option MediaStream) (w : World) : World :=
  let w := { w with mgr := { w.mgr with remoteStream := stream } }
  match w.videoElement with
  | some _ => { w with videoElement := some stream }
  | none =>
    handleError ⟨"Remote screen video element not found"⟩ "Failed to handle incoming track" w

/-- The `onicecandidate` callback, lines 239-243; `candidate` is
`event.candidate`, `none` for the end-of-candidates event. -/
def onicecandidate (candidate : Option String) (w : World) : World :=
  match candidate, w.mgr.socket with
  | some c, some _ => w.emit (.socketEmit "ice-candidate" c)
  | _, _ => w

/-- The `onconnectionstatechange` callback, lines 245-256. It reads the state
of the connection the manager holds at that moment; with none held the read
of `this.peerConnection.connectionState` throws a TypeError. -/
def onconnectionstatechange (w : World) : Outcome :=
  match w.mgr.peerConnection with
  | none => .threw ⟨"Cannot read properties of null"⟩ w
  | some pc =>
    let state := w.connectionState pc
    let w := notify.info ("WebRTC connection state: " ++ state.toString) w
    if state = .disconnected ∨ state = .failed ∨ state = .closed then
      .returned (handleDisconnect w)
    else .returned w

/-- The browser moves connection `pc` to `state` and fires the
`connectionstatechange` event on it. -/
def connectionStateChange (pc : Nat) (state : ConnState) (w : World) : Outcome :=
  onconnectionstatechange
    { w with connectionState := Function.update w.connectionState pc state }

end ConnectionManager

/-- The events of the socket the manager listens to (lines 100-138, 216-219);
offers and remote candidates are not among them here. -/
inductive SocketEvent where
  | connect_error (error : JsError)
  | connect_timeout
  | reconnect_attempt (attemptNumber : Nat)
  | reconnect_failed
  | reconnect (attemptNumber : Nat)
  | disconnect (reason : String)
  | connect
  | device_disconnected
deriving DecidableEq, Repr

namespace SocketEvent

/-- The handler the manager registered for the event. -/
def handler (ev : SocketEvent) (w : World) : World :=
  match ev with
  | .connect_error error => notify.error (.text "Server connection failed") (some error) w
  | .connect_timeout =>
    notify.error (.text "Connection timed out. Please check your network connection.") none w
  | .reconnect_attempt attemptNumber =>
    let w := { w with mgr := { w.mgr with isConnecting := true } }
    notify.info ("Reconnection attempt " ++ toString attemptNumber ++ "/5") w
  | .reconnect_failed =>
    let w := { w with mgr := { w.mgr with isConnecting := false } }
    notify.error
      (.text "Failed to reconnect after multiple attempts. Please try again later.") none w
  | .reconnect _ =>
    let w := { w with mgr := { w.mgr with isConnecting := false } }
    notify.success "Successfully reconnected to server" w
  | .disconnect reason => ConnectionManager.handleDisconnectReason reason w
  | .connect =>
    let w := { w with mgr := { w.mgr with isConnecting := false } }
    let w := match w.mgr.connectionTimeout with
      | some timer =>
        let w := w.emit (.clearTimeout timer)
        { w with mgr := { w.mgr with connectionTimeout := none } }
      | none => w
    notify.success "Connected to server successfully" w
  | .device_disconnected =>
    ConnectionManager.handleDisconnect (notify.info "Remote device disconnected" w)

/-- What socket.io does to the socket object before it fires the event: the
`connected` property is true from `connect` on and false from `disconnect` on. -/
def library (ev : SocketEvent) (s : Socket) : Socket :=
  match ev with
  | .connect => { s with connected := true }
  | .disconnect _ => { s with connected := false }
  | _ => s

/-- The socket fires the event: the library updates the socket object the
manager holds, then the registered handler runs. -/
def fire (ev : SocketEvent) (w : World) : World :=
  ev.handler { w with mgr := { w.mgr with socket := w.mgr.socket.map ev.library } }

end SocketEvent

/-- The calls a user of the manager makes on it. -/
inductive Call where
  | initializeConnection
  | handleDisconnect
  | destroy
deriving DecidableEq, Repr

namespace Call

/-- One call inside a synchronous block. The second component counts the
`initializeConnection` continuations parked on the microtask queue. -/
def run (c : Call) (st : World × Nat) : World × Nat :=
  match c with
  | .initializeConnection =>
    match ConnectionManager.initializeConnection st.1 with
    | .awaiting w => (w, st.2 + 1)
    | .fulfilled w => (w, st.2)
    | .rejected _ w => (w, st.2)
  | .handleDisconnect => (ConnectionManager.handleDisconnect st.1, st.2)
  | .destroy => (ConnectionManager.destroy st.1, st.2)

end Call

/-- The microtask checkpoint: the parked continuations run, first in first out. -/
def drainMicrotasks : Nat → World → World
  | 0, w => w
  | n + 1, w => drainMicrotasks n (ConnectionManager.initializeConnection_resume w)

/-- One task of the event loop: a synchronous block of calls, none of them
awaited by its caller, and then the microtask checkpoint. -/
def runTask (calls : List Call) (w : World) : World :=
  let st := calls.foldl (fun st c => c.run st) (w, 0)
  drainMicrotasks st.2 st.1

/-- A sequence of tasks. Calls of different tasks do not overlap. -/
def runTasks (tasks : List (List Call)) (w : World) : World :=
  tasks.foldl (fun w calls => runTask calls w) w

/-- A manager built on a reachable server whose socket has connected and which
has completed one `initializeConnection`: it holds peer connection 0. -/
def sessionWorld : World :=
  let w := (ConnectionManager.constructor (fun _ => none) (some "http://localhost:3000")
    (World.initial (some none) none)).world
  runTask [.initializeConnection] (SocketEvent.connect.fire w)

/-! ## The message handlers and the timer -/

/-- How an awaited promise settles; `value` is what it resolves to (the
answer for `createAnswer`, not read for the other primitives). -/
inductive Settled where
  | resolved (value : String)
  | rejected (error : JsError)
deriving DecidableEq, Repr

/-- The `await` at which the `offer` handler is parked: line 191, line 194,
or line 195 with the answer in its local variable. -/
inductive OfferTask where
  | setRemoteDescription
  | createAnswer
  | setLocalDescription (answer : String)
deriving DecidableEq, Repr

/-- How the run of an async handler ends: its promise is fulfilled, it is
rejected (an exception escaped the handler), or the handler is parked at an
`await`, to be resumed when the awaited promise settles. -/
inductive Async (τ : Type) where
  | fulfilled (w : World)
  | rejected (error : JsError) (w : World)
  | parked (task : τ) (w : World)

/-- The world a handler run leaves behind. -/
def Async.world {τ : Type} : Async τ → World
  | .fulfilled w => w
  | .rejected _ w => w
  | .parked _ w => w

namespace ConnectionManager

/-- The `offer` handler, lines 185-193, up to its first `await`. `offer` is a
session description `new RTCSessionDescription` accepts. -/
def onOffer (offer : String) (w : World) : Async OfferTask :=
  match w.mgr.peerConnection with
  | none =>
    .fulfilled (handleError ⟨"Peer connection not initialized"⟩ "Failed to process offer" w)
  | some pc => .parked .setRemoteDescription (w.emit (.pcSetRemoteDescription pc offer))

/-- The `offer` handler from one `await` to the next, lines 191-199. A
rejected promise throws into the `catch`; otherwise the next line reads
`this.peerConnection` (or `this.socket`) afresh, and with null there the
TypeError goes to the same `catch`. -/
def onOffer_resume (task : OfferTask) (result : Settled) (w : World) : Async OfferTask :=
  match result with
  | .rejected error => .fulfilled (handleError error "Failed to process offer" w)
  | .resolved value =>
    match task with
    | .setRemoteDescription =>
      match w.mgr.peerConnection with
      | none =>
        .fulfilled (handleError ⟨"Cannot read properties of null"⟩ "Failed to process offer" w)
      | some pc => .parked .createAnswer (w.emit (.pcCreateAnswer pc))
    | .createAnswer =>
      match w.mgr.peerConnection with
      | none =>
        .fulfilled (handleError ⟨"Cannot read properties of null"⟩ "Failed to process offer" w)
      | some pc =>
        .parked (.setLocalDescription value) (w.emit (.pcSetLocalDescription pc value))
    | .setLocalDescription answer =>
      match w.mgr.socket with
      | none =>
        .fulfilled (handleError ⟨"Cannot read properties of null"⟩ "Failed to process offer" w)
      | some _ => .fulfilled (w.emit (.socketEmit "answer" answer))

/-- A parked `offer` handler is fed the settlements of the promises it awaits,
one after the other, with nothing else running in between. -/
def settleOffer : Async OfferTask → List Settled → Async OfferTask
  | .parked task w, result :: results => settleOffer (onOffer_resume task result w) results
  | run, _ => run

/-- The `ice-candidate` handler, lines 202-210, up to its `await`. `candidate`
is a candidate description `new RTCIceCandidate` accepts. -/
def onIceCandidate (candidate : String) (w : World) : Async Unit :=
  match w.mgr.peerConnection with
  | none =>
    .fulfilled
      (handleError ⟨"Peer connection not initialized"⟩ "Failed to add ICE candidate" w)
  | some pc => .parked () (w.emit (.pcAddIceCandidate pc candidate))

/-- The `ice-candidate` handler after its `await`, lines 208-213. -/
def onIceCandidate_resume (result : Settled) (w : World) : Async Unit :=
  match result with
  | .rejected error => .fulfilled (handleError error "Failed to add ICE candidate" w)
  | .resolved _ => .fulfilled w

/-- The browser fires `track` on connection `pc`: the callback installed on
it by `_setupPeerConnectionHandlers` runs. The callback closes over the
manager, not over `pc`. -/
def trackEvent (pc : Nat) (stream : Option MediaStream) (w : World) : World :=
  if Effect.pcSetHandlers pc ∈ w.log then ontrack stream w else w

/-- The browser fires `icecandidate` on connection `pc`. -/
def iceCandidateEvent (pc : Nat) (candidate : Option String) (w : World) : World :=
  if Effect.pcSetHandlers pc ∈ w.log then onicecandidate candidate w else w

/-- The callback of the timer of lines 84-90; `serverUrl` is the argument of
`initializeSocket` it closes over. Reading `this.socket.connected` throws a
TypeError when the socket is null. -/
def connectionTimeoutCallback (serverUrl : String) (w : World) : Outcome :=
  match w.mgr.socket with
  | none => .threw ⟨"Cannot read properties of null"⟩ w
  | some socket =>
    if !socket.connected && !w.mgr.isConnecting then
      .returned (notify.error
        (.text ("Connection timeout: Unable to reach server at " ++ serverUrl)) none w)
    else .returned w

end ConnectionManager

/-- A timer is pending when it has been set and neither cleared nor fired. -/
def World.timerPending (timer : Nat) (w : World) : Bool :=
  w.log.any (fun e => match e with
    | .setTimeout t _ => t == timer
    | _ => false) &&
  !w.log.contains (.clearTimeout timer) && !w.log.contains (.timeoutFired timer)

/-- The browser runs the callback of a pending timer, once. -/
def fireTimeout (timer : Nat) (serverUrl : String) (w : World) : Outcome :=
  if w.timerPending timer then
    ConnectionManager.connectionTimeoutCallback serverUrl (w.emit (.timeoutFired timer))
  else .returned w

/-- Everything that makes the manager run after its construction. -/
inductive Step where
  | task (calls : List Call)
  | socket (ev : SocketEvent)
  | offer (description : String)
  | offerSettled (parked : OfferTask) (result : Settled)
  | iceCandidate (candidate : String)
  | iceCandidateSettled (result : Settled)
  | track (pc : Nat) (stream : Option MediaStream)
  | localCandidate (pc : Nat) (candidate : Option String)
  | connectionState (pc : Nat) (state : ConnState)
  | timeout (timer : Nat) (serverUrl : String)

/-- One step of the manager. -/
def Step.run : Step → World → World
  | .task calls, w => runTask calls w
  | .socket ev, w => ev.fire w
  | .offer description, w => (ConnectionManager.onOffer description w).world
  | .offerSettled parked result, w =>
    (ConnectionManager.onOffer_resume parked result w).world
  | .iceCandidate candidate, w => (ConnectionManager.onIceCandidate candidate w).world
  | .iceCandidateSettled result, w => (ConnectionManager.onIceCandidate_resume result w).world
  | .track pc stream, w => ConnectionManager.trackEvent pc stream w
  | .localCandidate pc candidate, w => ConnectionManager.iceCandidateEvent pc candidate w
  | .connectionState pc state, w => (ConnectionManager.connectionStateChange pc state w).world
  | .timeout timer serverUrl, w => (fireTimeout timer serverUrl w).world

/-- A sequence of steps, in order. -/
def runSteps (steps : List Step) (w : World) : World :=
  steps.foldl (fun w step => step.run w) w

/-- The calls of `window.io` so far. -/
def World.ioCalls (w : World) : List (String × IoOptions) :=
  w.log.filterMap fun e => match e with
    | .io serverUrl options => some (serverUrl, options)
    | _ => none

/-- The calls of `addIceCandidate` so far, oldest first. -/
def World.addedCandidates (w : World) : List (Nat × String) :=
  w.log.filterMap fun e => match e with
    | .pcAddIceCandidate pc candidate => some (pc, candidate)
    | _ => none

/-- The calls of `setRemoteDescription` so far, oldest first. -/
def World.remoteDescriptions (w : World) : List (Nat × String) :=
  w.log.filterMap fun e => match e with
    | .pcSetRemoteDescription pc description => some (pc, description)
    | _ => none

/-- The messages emitted on the socket so far, oldest first. -/
def World.emitted (w : World) : List (String × String) :=
  w.log.filterMap fun e => match e with
    | .socketEmit event payload => some (event, payload)
    | _ => none

/-- The error notifications so far, oldest first. -/
def World.errors (w : World) : List (Message × Option JsError) :=
  w.log.filterMap fun e => match e with
    | .notifyError message error => some (message, error)
    | _ => none

/-- The events dispatched on the document so far, oldest first. -/
def World.dispatched (w : World) : List String :=
  w.log.filterMap fun e => match e with
    | .dispatchEvent type => some type
    | _ => none

/-- A manager whose socket has been opened and has not connected yet. -/
def connectingWorld : World :=
  (ConnectionManager.constructor (fun _ => none) (some "http://localhost:3000")
    (World.initial (some none) none)).world

/-! ## Handlers registered, and how a run continues a world -/

/-- The events for which a handler is registered on the socket: every
`socket.on` call so far. The class never calls `socket.off` or
`removeListener`, and `socket.disconnect()` removes no listener. -/
def World.socketHandlers (w : World) : List String :=
  w.log.filterMap fun e => match e with
    | .socketOn event => some event
    | _ => none

/-- The peer connections that carry the callbacks of
`_setupPeerConnectionHandlers`. The class never resets a callback property,
and `close()` leaves them in place. -/
def World.pcHandlers (w : World) : List Nat :=
  w.log.filterMap fun e => match e with
    | .pcSetHandlers pc => some pc
    | _ => none

/-- The world `w'` continues `w`: its log extends the log of `w` by effects
`es`, none of which starts a timer; `connectionTimeout` is either the same or
the timer it named has been cleared in `es`; and the socket is either still
there (if it was) or the timer `connectionTimeout` named has been cleared in
`es`. -/
def World.Frame (w w' : World) : Prop :=
  ∃ es : List Effect, w'.log = w.log ++ es ∧
    (∀ timer ms, Effect.setTimeout timer ms ∉ es) ∧
    (w'.mgr.connectionTimeout = w.mgr.connectionTimeout ∨
      ∃ timer, w.mgr.connectionTimeout = some timer ∧ Effect.clearTimeout timer ∈ es) ∧
    ((w.mgr.socket ≠ none → w'.mgr.socket ≠ none) ∨
      ∀ timer, w.mgr.connectionTimeout = some timer → Effect.clearTimeout timer ∈ es)

/-! ## InputHandler (.history/src/js/input/input-handler_20241221052500.js) and the
renderer (.history/src/js/renderer_20241221075133.js) -/

/-- Where a DOM listener is registered: the `remote-screen` element or the
document. -/
inductive Target where
  | screen
  | document
deriving DecidableEq, Repr

/-- The two methods of `InputHandler` that are registered as listeners. -/
inductive InputMethod where
  | _handleMouseEvent
  | _handleKeyEvent
deriving DecidableEq, Repr

/-- A registered DOM listener: target, event type and the function object.
`callback` is the identity of the function object; `method` is the method it
was bound from with `bind(this)`. -/
structure Listener where
  target : Target
  type : String
  callback : Nat
  method : InputMethod
deriving DecidableEq, Repr

/-- A DOM event as the handlers read it. `x` and `y` are the rounded, scaled
coordinates of lines 43-50 (floating point, not computed here); `keyCode` is
`event.keyCode`. -/
structure DomEvent where
  target : Target
  type : String
  x : Int
  y : Int
  keyCode : Nat
deriving DecidableEq, Repr

/-- The fields of an `InputHandler` (lines 3-5); `socket` tells whether the
constructor was given a socket object. The scale factor is part of the
coordinates of a `DomEvent`. -/
structure InputHandler where
  socket : Bool
  isControlling : Bool
deriving DecidableEq, Repr

/-- The renderer: the world of the connection manager, the input handler, the
listeners registered on the DOM in registration order, and the identity of
the next function object `bind` creates. -/
structure App where
  world : World
  inputHandler : InputHandler
  listeners : List Listener
  nextFunction : Nat

/-- How a function of the renderer ends: it returns, or it throws. -/
inductive AppOutcome where
  | returned (app : App)
  | threw (error : JsError) (app : App)

/-- The renderer an outcome leaves behind. -/
def AppOutcome.app : AppOutcome → App
  | .returned app => app
  | .threw _ app => app

namespace App

/-- `target.addEventListener(type, method.bind(this))`: `bind` creates a new
function object, and the listener is added unless the same function object is
already registered for that target and type. -/
def addEventListener (target : Target) (type : String) (method : InputMethod)
    (app : App) : App :=
  let callback := app.nextFunction
  let app := { app with nextFunction := callback + 1 }
  if app.listeners.any (fun l => l.target = target ∧ l.type = type ∧ l.callback = callback)
  then app
  else { app with listeners := app.listeners ++ [⟨target, type, callback, method⟩] }

/-- `target.removeEventListener(type, method.bind(this))`: `bind` creates a
new function object, and the listeners registered for that target and type
with that very function object are removed. -/
def removeEventListener (target : Target) (type : String) (_method : InputMethod)
    (app : App) : App :=
  let callback := app.nextFunction
  let app := { app with nextFunction := callback + 1 }
  { app with listeners := app.listeners.filter fun l =>
      !decide (l.target = target ∧ l.type = type ∧ l.callback = callback) }

end App

namespace InputHandler

/-- Lines 18-25. With no `remote-screen` element the first call throws. -/
def _setupEventListeners (app : App) : AppOutcome :=
  match app.world.videoElement with
  | none => .threw ⟨"Cannot read properties of null"⟩ app
  | some _ =>
    let app := app.addEventListener .screen "mousedown" ._handleMouseEvent
    let app := app.addEventListener .screen "mousemove" ._handleMouseEvent
    let app := app.addEventListener .screen "mouseup" ._handleMouseEvent
    let app := app.addEventListener .document "keydown" ._handleKeyEvent
    let app := app.addEventListener .document "keyup" ._handleKeyEvent
    .returned app

/-- Lines 27-34. -/
def _removeEventListeners (app : App) : AppOutcome :=
  match app.world.videoElement with
  | none => .threw ⟨"Cannot read properties of null"⟩ app
  | some _ =>
    let app := app.removeEventListener .screen "mousedown" ._handleMouseEvent
    let app := app.removeEventListener .screen "mousemove" ._handleMouseEvent
    let app := app.removeEventListener .screen "mouseup" ._handleMouseEvent
    let app := app.removeEventListener .document "keydown" ._handleKeyEvent
    let app := app.removeEventListener .document "keyup" ._handleKeyEvent
    .returned app

/-- Lines 8-11. -/
def startControl (app : App) : AppOutcome :=
  _setupEventListeners
    { app with inputHandler := { app.inputHandler with isControlling := true } }

/-- Lines 13-16. -/
def stopControl (app : App) : AppOutcome :=
  _removeEventListeners
    { app with inputHandler := { app.inputHandler with isControlling := false } }

/-- Lines 36-52. The message is the object of lines 46-51, written as text. -/
def _handleMouseEvent (event : DomEvent) (app : App) : AppOutcome :=
  if !app.inputHandler.isControlling then .returned app
  else match app.world.videoElement with
    | none => .threw ⟨"Cannot read properties of null"⟩ app
    | some _ =>
      if app.inputHandler.socket then
        .returned { app with world := app.world.emit (.socketEmit "input-event"
          ("touch " ++ event.type ++ " " ++ toString event.x ++ " " ++ toString event.y)) }
      else .threw ⟨"Cannot read properties of undefined"⟩ app

/-- Lines 54-62. The message is the object of lines 57-61, written as text. -/
def _handleKeyEvent (event : DomEvent) (app : App) : AppOutcome :=
  if !app.inputHandler.isControlling then .returned app
  else if app.inputHandler.socket then
    .returned { app with world := app.world.emit (.socketEmit "input-event"
      ("key " ++ toString event.keyCode ++ " " ++ event.type)) }
  else .threw ⟨"Cannot read properties of undefined"⟩ app

end InputHandler

/-- The listener runs: the method it was bound from, on the input handler. -/
def Listener.run (l : Listener) (event : DomEvent) (app : App) : AppOutcome :=
  match l.method with
  | ._handleMouseEvent => InputHandler._handleMouseEvent event app
  | ._handleKeyEvent => InputHandler._handleKeyEvent event app

/-- The browser dispatches a DOM event: the listeners registered for its target
and type run in registration order; an exception in one is reported by the
browser and does not stop the others. -/
def App.dispatch (event : DomEvent) (app : App) : App :=
  (app.listeners.filter fun l => l.target = event.target ∧ l.type = event.type).foldl
    (fun app l => (l.run event app).app) app

/-- The renderer of `renderer.js` after `initializeManagers`, as far as the
two managers go: the input handler was given the socket of the manager, and
no listener of it is registered yet. -/
def App.initial (world : World) : App :=
  { world := world
    inputHandler := ⟨world.mgr.socket.isSome, false⟩
    listeners := []
    nextFunction := 0 }

/-- The click handler `handleConnect` of `renderer.js`, lines 116-141, as far
as the two managers go (buttons and the session timer are left out):
`initializeConnection` is awaited and then `startControl` is called; when the
promise is rejected the `catch` shows the error. -/
def handleConnect (app : App) : AppOutcome :=
  match ConnectionManager.initializeConnection app.world with
  | .rejected error w =>
    let w := w.emit (.notifyError (.text ("Connection failed: " ++ error.message)) none)
    .returned { app with world := w }
  | .fulfilled w => InputHandler.startControl { app with world := w }
  | .awaiting w =>
    InputHandler.startControl
      { app with world := ConnectionManager.initializeConnection_resume w }

/-! ## QueueManager (.history/src/js/queue/queue-manager_20241221063606.js) -/

/-- The method `String.prototype.padStart` with a one-character filler. -/
def padStart (s : String) (targetLength : Nat) (fill : Char) : String :=
  String.mk (List.replicate (targetLength - s.length) fill) ++ s

namespace QueueManager

/-- A time value: a whole number of milliseconds since the epoch within the
range of `Date`, which ends 8.64e15 ms on either side of it. `Date.now()`
returns one. -/
structure TimeValue where
  ms : Int
  inRange : -8640000000000000 ≤ ms ∧ ms ≤ 8640000000000000

/-- The time value of `new Date(value)` for a whole number `value`: the
operation TimeClip makes the date invalid (time value `NaN`, here `none`) when
`value` is more than 8.64e15 ms away from the epoch. -/
def newDate (value : Int) : Option Int :=
  if value < -8640000000000000 ∨ 8640000000000000 < value then none else some value

/-- The Number nearest to a whole number `n` below 2^54 in magnitude, which is
what the difference of two time values is. Up to 2^53 = 9007199254740992 every
whole number is a Number; above it the Numbers are the even ones, and an odd
`n`, halfway between two of them, goes to the one with the even significand,
the multiple of 4. -/
def roundToDouble (n : Int) : Int :=
  if n.natAbs ≤ 9007199254740992 then n
  else if n % 2 = 0 then n
  else if (n + 1) % 4 = 0 then n + 1
  else n - 1

/-- Lines 56-61. `now` is `Date.now()` and `requestTime` the whole number the
caller passes. With an invalid date every intermediate value is `NaN`, whose
string `"NaN"` is longer than the padding. Otherwise the subtraction rounds
to a Number, `Math.floor` of a quotient is floor division (the quotients here
are below 2^44, where a Number is off by less than 1/1000), and `%` is the
remainder that takes the sign of the dividend. -/
def _formatWaitTime (now : TimeValue) (requestTime : Int) : String :=
  match newDate requestTime with
  | none => "NaN:NaN"
  | some time =>
    let waitTime := (roundToDouble (now.ms - time)).fdiv 1000
    let minutes := waitTime.fdiv 60
    let seconds := waitTime.tmod 60
    toString minutes ++ ":" ++ padStart (toString seconds) 2 '0'

end QueueManager

/-- A world the manager can be in: the constructor has run in a browser with
an empty log, and then any steps. -/
def reachableWorld (parseURL : String → Option JsError) (serverUrl : Option String)
    (videoElement : Option (Option MediaStream)) (ioError : Option JsError)
    (steps : List Step) : World :=
  runSteps steps
    (ConnectionManager.constructor parseURL serverUrl
      (World.initial videoElement ioError)).world

/-! ## Closed forms of the operations -/

namespace World

@[simp]
theorem emit_log (e : Effect) (w : World) : (w.emit e).log = w.log ++ [e] := rfl

@[simp]
theorem emit_mgr (e : Effect) (w : World) : (w.emit e).mgr = w.mgr := rfl

@[simp]
theorem emit_connectionState (e : Effect) (w : World) :
    (w.emit e).connectionState = w.connectionState := rfl

@[simp]
theorem emit_nextPc (e : Effect) (w : World) : (w.emit e).nextPc = w.nextPc := rfl

@[simp]
theorem emit_nextTimer (e : Effect) (w : World) :
    (w.emit e).nextTimer = w.nextTimer := rfl

@[simp]
theorem emit_videoElement (e : Effect) (w : World) :
    (w.emit e).videoElement = w.videoElement := rfl

@[simp]
theorem emit_ioError (e : Effect) (w : World) : (w.emit e).ioError = w.ioError := rfl

/-- Emitting a list of effects one after the other only extends the log. -/
theorem foldl_emit (f : Nat → Effect) (xs : List Nat) (w : World) :
    xs.foldl (fun (w : World) x => w.emit (f x)) w = { w with log := w.log ++ xs.map f } := by
  induction xs generalizing w with
  | nil => simp
  | cons x xs ih =>
    rw [List.foldl_cons, ih]
    simp [World.emit]

end World

namespace ConnectionManager

/-- The world `handleDisconnect` returns, field by field. -/
theorem handleDisconnect_eq (w : World) :
    handleDisconnect w =
      { mgr := { w.mgr with peerConnection := none, remoteStream := none }
        connectionState := match w.mgr.peerConnection with
          | some pc => Function.update w.connectionState pc .closed
          | none => w.connectionState
        nextPc := w.nextPc
        nextTimer := w.nextTimer
        videoElement := w.videoElement.map fun _ => none
        ioError := w.ioError
        log := w.log ++ handleDisconnectEffects w } := by
  obtain ⟨⟨pc, rs, sock, ct, ic⟩, cs, np, nt, ve, ioe, log⟩ := w
  cases pc <;> cases rs <;> cases ve <;>
    simp only [handleDisconnect, World.foldl_emit] <;>
    simp [handleDisconnectEffects, World.emit, notify.info]

/-- The world the continuation of `initializeConnection` returns. -/
theorem initializeConnection_resume_eq (w : World) :
    initializeConnection_resume w =
      { w with
        mgr := { w.mgr with peerConnection := some w.nextPc }
        nextPc := w.nextPc + 1
        connectionState := Function.update w.connectionState w.nextPc .new
        log := w.log ++ [.newRTCPeerConnection w.nextPc, .pcSetHandlers w.nextPc,
          .notifyInfo "Initializing peer connection..."] } := by
  simp [initializeConnection_resume, _setupPeerConnectionHandlers, World.emit, notify.info]

/-- The world `destroy` returns, from the world its `handleDisconnect` leaves. -/
theorem destroy_eq (w : World) :
    destroy w =
      { handleDisconnect w with
        mgr := { (handleDisconnect w).mgr with socket := none }
        log := (handleDisconnect w).log ++
          (handleDisconnect w).mgr.connectionTimeout.toList.map Effect.clearTimeout ++
          (handleDisconnect w).mgr.socket.toList.map fun _ => Effect.socketDisconnect } := by
  simp only [destroy]
  generalize handleDisconnect w = w₁
  obtain ⟨⟨pc, rs, sock, ct, ic⟩, cs, np, nt, ve, ioe, log⟩ := w₁
  cases ct <;> cases sock <;> simp [World.emit]

/-- Track stops create no connection. -/
theorem filterMap_created_trackStop (tracks : List Nat) :
    (tracks.map Effect.trackStop).filterMap (fun e => match e with
      | .newRTCPeerConnection pc => some pc
      | _ => none) = [] := by
  induction tracks with
  | nil => rfl
  | cons t ts ih => simp [List.filterMap_cons]

/-- Track stops close no connection. -/
theorem filterMap_closed_trackStop (tracks : List Nat) :
    (tracks.map Effect.trackStop).filterMap (fun e => match e with
      | .pcClose pc => some pc
      | _ => none) = [] := by
  induction tracks with
  | nil => rfl
  | cons t ts ih => simp [List.filterMap_cons]

/-- `handleDisconnect` creates no connection. -/
theorem created_handleDisconnect (w : World) : (handleDisconnect w).created = w.created := by
  rw [handleDisconnect_eq]
  cases hp : w.mgr.peerConnection <;> cases hr : w.mgr.remoteStream <;>
    simp [World.created, handleDisconnectEffects, hp, hr, List.filterMap_append,
      filterMap_created_trackStop]

/-- `handleDisconnect` closes the held connection and no other. -/
theorem closed_handleDisconnect (w : World) :
    (handleDisconnect w).closed = w.closed ++ w.mgr.peerConnection.toList := by
  rw [handleDisconnect_eq]
  cases hp : w.mgr.peerConnection <;> cases hr : w.mgr.remoteStream <;>
    simp [World.closed, handleDisconnectEffects, hp, hr, List.filterMap_append,
      filterMap_closed_trackStop]

/-- The continuation of `initializeConnection` creates the next connection. -/
theorem created_initializeConnection_resume (w : World) :
    (initializeConnection_resume w).created = w.created ++ [w.nextPc] := by
  rw [initializeConnection_resume_eq]
  simp [World.created, List.filterMap_append]

/-- The continuation of `initializeConnection` closes nothing. -/
theorem closed_initializeConnection_resume (w : World) :
    (initializeConnection_resume w).closed = w.closed := by
  rw [initializeConnection_resume_eq]
  simp [World.closed, List.filterMap_append]

/-- `handleDisconnect` keeps the invariant: every created connection other
than the held one has been closed. Afterwards none is held. -/
theorem handleDisconnect_others_closed (w : World)
    (h : ∀ pc ∈ w.created, w.mgr.peerConnection ≠ some pc → pc ∈ w.closed) :
    (handleDisconnect w).mgr.peerConnection = none ∧
      ∀ pc ∈ (handleDisconnect w).created, pc ∈ (handleDisconnect w).closed := by
  refine ⟨by rw [handleDisconnect_eq], ?_⟩
  intro pc hpc
  rw [created_handleDisconnect] at hpc
  rw [closed_handleDisconnect]
  by_cases hheld : w.mgr.peerConnection = some pc
  · simp [hheld]
  · exact List.mem_append_left _ (h pc hpc hheld)

/-- The continuation keeps the invariant when it starts with every created
connection closed, which is the case when nothing ran between the `await` and
it. -/
theorem initializeConnection_resume_others_closed (w : World)
    (h : ∀ pc ∈ w.created, pc ∈ w.closed) :
    ∀ pc ∈ (initializeConnection_resume w).created,
      (initializeConnection_resume w).mgr.peerConnection ≠ some pc →
        pc ∈ (initializeConnection_resume w).closed := by
  intro pc hpc hne
  rw [created_initializeConnection_resume] at hpc
  rw [closed_initializeConnection_resume]
  rcases List.mem_append.mp hpc with hpc | hpc
  · exact h pc hpc
  · exfalso
    apply hne
    rw [initializeConnection_resume_eq]
    simp at hpc
    simp [hpc]

/-- One call run as a task of its own keeps the invariant. -/
theorem runTask_single_others_closed (c : Call) (w : World)
    (h : ∀ pc ∈ w.created, w.mgr.peerConnection ≠ some pc → pc ∈ w.closed) :
    ∀ pc ∈ (runTask [c] w).created,
      (runTask [c] w).mgr.peerConnection ≠ some pc → pc ∈ (runTask [c] w).closed := by
  cases c with
  | handleDisconnect =>
    intro pc hpc _
    exact (handleDisconnect_others_closed w h).2 pc hpc
  | destroy =>
    have hd := handleDisconnect_others_closed w h
    intro pc hpc _
    have hrun : runTask [.destroy] w = destroy w := rfl
    have hcreated : (runTask [.destroy] w).created = (handleDisconnect w).created := by
      rw [hrun, destroy_eq]
      simp [World.created, List.filterMap_append]
    have hclosed : (runTask [.destroy] w).closed = (handleDisconnect w).closed := by
      rw [hrun, destroy_eq]
      simp [World.closed, List.filterMap_append]
    rw [hcreated] at hpc
    rw [hclosed]
    exact hd.2 pc hpc
  | initializeConnection =>
    by_cases hs : w.mgr.socketConnected = true
    · cases hp : w.mgr.peerConnection with
      | none =>
        have hrun : runTask [.initializeConnection] w = initializeConnection_resume w := by
          simp [runTask, Call.run, initializeConnection, hs, hp, drainMicrotasks]
        rw [hrun]
        refine initializeConnection_resume_others_closed w ?_
        intro pc hpc
        exact h pc hpc (by simp [hp])
      | some old =>
        have hrun : runTask [.initializeConnection] w =
            initializeConnection_resume (handleDisconnect w) := by
          simp [runTask, Call.run, initializeConnection, hs, hp, drainMicrotasks]
        rw [hrun]
        have hd := handleDisconnect_others_closed w h
        exact initializeConnection_resume_others_closed _ hd.2
    · have hrun : runTask [.initializeConnection] w =
          notify.error (.text "Failed to initialize peer connection") (some
            ⟨"Not connected to server. Please ensure connection before initializing."⟩) w := by
        simp [runTask, Call.run, initializeConnection, hs, drainMicrotasks]
      rw [hrun]
      intro pc hpc hne
      have hc : (notify.error (.text "Failed to initialize peer connection") (some
          ⟨"Not connected to server. Please ensure connection before initializing."⟩)
          w).created = w.created := by
        simp [World.created, notify.error, List.filterMap_append]
      have hcl : (notify.error (.text "Failed to initialize peer connection") (some
          ⟨"Not connected to server. Please ensure connection before initializing."⟩)
          w).closed = w.closed := by
        simp [World.closed, notify.error, List.filterMap_append]
      rw [hc] at hpc
      rw [hcl]
      exact h pc hpc hne

/-- Calls that do not overlap (each one a task of its own, so that the
continuation of an `initializeConnection` runs before the next call) keep the
invariant: every created connection other than the held one has been closed. -/
theorem runTasks_sequential_others_closed (calls : List Call) (w : World)
    (h : ∀ pc ∈ w.created, w.mgr.peerConnection ≠ some pc → pc ∈ w.closed) :
    ∀ pc ∈ (runTasks (calls.map fun c => [c]) w).created,
      (runTasks (calls.map fun c => [c]) w).mgr.peerConnection ≠ some pc →
        pc ∈ (runTasks (calls.map fun c => [c]) w).closed := by
  induction calls generalizing w with
  | nil => simpa [runTasks] using h
  | cons c cs ih =>
    have hstep := runTask_single_others_closed c w h
    simpa [runTasks] using ih (runTask [c] w) hstep

/-- C1 (code defect). Two `initializeConnection` calls made in one synchronous
block on a manager that holds connection 0: the first closes connection 0 and
parks at its `await`, the second finds no connection and creates connection 1,
then the continuation of the first creates connection 2 and overwrites
`peerConnection`. Connection 1 is created, never closed and no longer held, so
two connections are un-closed at once. -/
theorem initializeConnection_overlap_leaves_unclosed_connection :
    (runTask [.initializeConnection, .initializeConnection] sessionWorld).mgr.peerConnection
        = some 2 ∧
      (runTask [.initializeConnection, .initializeConnection] sessionWorld).created
        = [0, 1, 2] ∧
      (runTask [.initializeConnection, .initializeConnection] sessionWorld).closed = [0] ∧
      (runTask [.initializeConnection, .initializeConnection] sessionWorld).unclosed
        = [1, 2] := by
  decide

/-- When validation fails the constructor reports the error and rethrows it,
before `initializeSocket` is reached. -/
theorem constructor_of_invalid (parseURL : String → Option JsError)
    (serverUrl : Option String) (w : World) (e : JsError)
    (h : validateServerUrl parseURL serverUrl = .error e) :
    constructor parseURL serverUrl w =
      .threw e (notify.error (.text "Failed to create connection manager") (some e)
        { w with mgr := ⟨none, none, none, none, false⟩ }) := by
  simp [constructor, h]

/-- C2. Constructing a manager with a missing or empty server URL, or with one
the URL parser rejects, throws; the only effect is the error notification, so
`window.io` is not called, no timer is started and the socket stays null. For
a non-empty URL the parser accepts, `validateServerUrl` does not fail. -/
theorem constructor_validates_serverUrl (parseURL : String → Option JsError)
    (serverUrl : Option String) (w : World) :
    ((serverUrl = none ∨ serverUrl = some "" ∨
        ∃ url e, serverUrl = some url ∧ parseURL url = some e) →
      ∃ e w', constructor parseURL serverUrl w = .threw e w' ∧
        w'.mgr.socket = none ∧ w'.mgr.connectionTimeout = none ∧
        w'.log = w.log ++ [.notifyError (.text "Failed to create connection manager") (some e)] ∧
        (∀ url options, Effect.io url options ∉ w'.log.drop w.log.length) ∧
        (∀ timer ms, Effect.setTimeout timer ms ∉ w'.log.drop w.log.length)) ∧
    (∀ url, serverUrl = some url → url ≠ "" → parseURL url = none →
      validateServerUrl parseURL serverUrl = .ok ()) := by
  constructor
  · intro h
    obtain ⟨e, he⟩ : ∃ e, validateServerUrl parseURL serverUrl = .error e := by
      rcases h with h | h | ⟨url, e, h, hp⟩
      · exact ⟨_, by rw [h]; rfl⟩
      · exact ⟨_, by rw [h]; rfl⟩
      · subst h
        by_cases hu : url = ""
        · exact ⟨⟨"Server URL is required"⟩, by simp [validateServerUrl, hu]⟩
        · exact ⟨⟨"Invalid server URL: " ++ e.message⟩, by simp [validateServerUrl, hu, hp]⟩
    refine ⟨e, _, constructor_of_invalid parseURL serverUrl w e he, rfl, rfl, rfl, ?_, ?_⟩ <;>
      simp [notify.error]
  · intro url h hu hp
    subst h
    simp [validateServerUrl, hu, hp]

/-- C2, at concrete inputs: the empty URL is refused without opening a socket,
and a parsable URL passes validation. -/
theorem constructor_validates_serverUrl_witness :
    (∃ e w', constructor (fun _ => none) (some "") (World.initial none none) = .threw e w' ∧
        w'.mgr.socket = none ∧ w'.mgr.connectionTimeout = none ∧
        w'.log = (World.initial none none).log ++
          [.notifyError (.text "Failed to create connection manager") (some e)] ∧
        (∀ url options,
          Effect.io url options ∉ w'.log.drop (World.initial none none).log.length) ∧
        (∀ timer ms,
          Effect.setTimeout timer ms ∉ w'.log.drop (World.initial none none).log.length)) ∧
      validateServerUrl (fun _ => none) (some "http://localhost:3000") = .ok () :=
  ⟨(constructor_validates_serverUrl (fun _ => none) (some "") (World.initial none none)).1
      (Or.inr (Or.inl rfl)),
    (constructor_validates_serverUrl (fun _ => none) (some "http://localhost:3000")
      (World.initial none none)).2 _ rfl (by decide) rfl⟩

/-- C3. `initializeConnection` on a manager whose socket is absent or not
connected rejects with the connectivity error and changes nothing: the manager
fields are the same, the only effect is the error notification, so no peer
connection is created and none is closed. -/
theorem initializeConnection_not_connected_atomic (w : World)
    (h : w.mgr.socket = none ∨ w.mgr.socket = some ⟨false⟩) :
    ∃ w', initializeConnection w = .rejected
        ⟨"Not connected to server. Please ensure connection before initializing."⟩ w' ∧
      w'.mgr = w.mgr ∧
      w'.log = w.log ++ [.notifyError (.text "Failed to initialize peer connection") (some
        ⟨"Not connected to server. Please ensure connection before initializing."⟩)] ∧
      w'.created = w.created ∧ w'.closed = w.closed ∧
      w'.connectionState = w.connectionState := by
  have hc : w.mgr.socketConnected = false := by
    rcases h with h | h <;> simp [socketConnected, h]
  refine ⟨notify.error (.text "Failed to initialize peer connection") (some
    ⟨"Not connected to server. Please ensure connection before initializing."⟩) w,
    by simp [initializeConnection, hc], rfl, rfl, ?_, ?_, rfl⟩ <;>
    simp [World.created, World.closed, notify.error, List.filterMap_append]

/-- C3, on a manager whose socket has not connected yet and which holds
connection 7 with a stream. -/
theorem initializeConnection_not_connected_atomic_witness :
    ∃ w', initializeConnection
        { World.initial none none with
          mgr := ⟨some 7, some ⟨1, [2, 3]⟩, some ⟨false⟩, some 1, false⟩ } = .rejected
        ⟨"Not connected to server. Please ensure connection before initializing."⟩ w' ∧
      w'.mgr = ⟨some 7, some ⟨1, [2, 3]⟩, some ⟨false⟩, some 1, false⟩ ∧
      w'.log = [] ++ [.notifyError (.text "Failed to initialize peer connection") (some
        ⟨"Not connected to server. Please ensure connection before initializing."⟩)] ∧
      w'.created = [] ∧ w'.closed = [] ∧
      w'.connectionState = (World.initial none none).connectionState :=
  initializeConnection_not_connected_atomic
    { World.initial none none with
      mgr := ⟨some 7, some ⟨1, [2, 3]⟩, some ⟨false⟩, some 1, false⟩ } (Or.inr rfl)

/-- C4. `initializeConnection` with a connected socket while connection `old`
is held does not reject: it tears the session down and parks (the old
connection is closed, every track of the held stream is stopped), and its
continuation then creates a new connection, so that on completion
`peerConnection` is the new connection and `remoteStream` is null. In the log
the teardown comes before the creation. -/
theorem initializeConnection_replaces_session (w : World) (old : Nat)
    (hs : w.mgr.socketConnected = true) (hp : w.mgr.peerConnection = some old) :
    ∃ w₁, initializeConnection w = .awaiting w₁ ∧
      w₁.mgr.peerConnection = none ∧ w₁.mgr.remoteStream = none ∧
      w₁.log = w.log ++ handleDisconnectEffects w ∧
      Effect.pcClose old ∈ handleDisconnectEffects w ∧
      (∀ stream, w.mgr.remoteStream = some stream →
        ∀ track ∈ stream.tracks, Effect.trackStop track ∈ handleDisconnectEffects w) ∧
      (∀ pc, Effect.newRTCPeerConnection pc ∉ handleDisconnectEffects w) ∧
      runTask [.initializeConnection] w = initializeConnection_resume w₁ ∧
      (initializeConnection_resume w₁).mgr.peerConnection = some w.nextPc ∧
      (initializeConnection_resume w₁).mgr.remoteStream = none ∧
      (initializeConnection_resume w₁).log = w.log ++ handleDisconnectEffects w ++
        [.newRTCPeerConnection w.nextPc, .pcSetHandlers w.nextPc,
          .notifyInfo "Initializing peer connection..."] := by
  have hi : initializeConnection w = .awaiting (handleDisconnect w) := by
    simp [initializeConnection, hs, hp]
  refine ⟨handleDisconnect w, hi, ?_, ?_, ?_, ?_, ?_, ?_, ?_, ?_, ?_, ?_⟩
  · rw [handleDisconnect_eq]
  · rw [handleDisconnect_eq]
  · rw [handleDisconnect_eq]
  · simp [handleDisconnectEffects, hp]
  · intro stream hstream track htrack
    simp [handleDisconnectEffects, hstream, htrack]
  · intro pc
    cases hr : w.mgr.remoteStream <;> simp [handleDisconnectEffects, hp, hr]
  · simp [runTask, Call.run, hi, drainMicrotasks]
  · rw [initializeConnection_resume_eq, handleDisconnect_eq]
  · rw [initializeConnection_resume_eq, handleDisconnect_eq]
  · rw [initializeConnection_resume_eq, handleDisconnect_eq]

/-- C4, on the manager of `sessionWorld`, which holds connection 0. -/
theorem initializeConnection_replaces_session_witness :
    sessionWorld.mgr.socketConnected = true ∧ sessionWorld.mgr.peerConnection = some 0 ∧
      (runTask [.initializeConnection] sessionWorld).mgr.peerConnection = some 1 ∧
      (runTask [.initializeConnection] sessionWorld).closed = [0] :=
  ⟨by decide, by decide,
    by
      obtain ⟨w₁, _, _, _, _, _, _, _, hrun, hpc, _, _⟩ :=
        initializeConnection_replaces_session sessionWorld 0 (by decide) (by decide)
      rw [hrun, hpc]
      decide,
    by decide⟩

/-- C5. After `handleDisconnect`, whether called directly, by the handler of
the `device-disconnected` message or by the connection-state callback of the
held connection (states disconnected, failed and closed), the held connection
has been closed in that call, every track of the held stream has been stopped
in that call, and `peerConnection` and `remoteStream` are null. -/
theorem handleDisconnect_releases_transport (w w' : World)
    (h : w' = handleDisconnect w ∨ w' = SocketEvent.device_disconnected.fire w ∨
      ∃ pc state, w.mgr.peerConnection = some pc ∧
        (state = .disconnected ∨ state = .failed ∨ state = .closed) ∧
        w' = (connectionStateChange pc state w).world) :
    w'.mgr.peerConnection = none ∧ w'.mgr.remoteStream = none ∧
      (∀ pc, w.mgr.peerConnection = some pc →
        Effect.pcClose pc ∈ w'.log.drop w.log.length ∧ w'.connectionState pc = .closed) ∧
      (∀ stream, w.mgr.remoteStream = some stream →
        ∀ track ∈ stream.tracks, Effect.trackStop track ∈ w'.log.drop w.log.length) := by
  rcases h with h | h | ⟨pc, state, hpc, hstate, h⟩
  · subst h
    rw [handleDisconnect_eq]
    refine ⟨rfl, rfl, ?_, ?_⟩
    · intro pc hpc
      simp [handleDisconnectEffects, hpc]
    · intro stream hstream track htrack
      simp [handleDisconnectEffects, hstream, htrack]
  · subst h
    simp only [SocketEvent.fire, SocketEvent.handler, SocketEvent.library]
    rw [handleDisconnect_eq]
    refine ⟨rfl, rfl, ?_, ?_⟩
    · intro pc hpc
      simp [handleDisconnectEffects, notify.info, hpc]
    · intro stream hstream track htrack
      simp [handleDisconnectEffects, notify.info, hstream, htrack]
  · subst h
    have hrun : connectionStateChange pc state w = .returned (handleDisconnect
        (notify.info ("WebRTC connection state: " ++ state.toString)
          { w with connectionState := Function.update w.connectionState pc state })) := by
      simp [connectionStateChange, onconnectionstatechange, hpc, hstate]
    rw [hrun, Outcome.world, handleDisconnect_eq]
    refine ⟨rfl, rfl, ?_, ?_⟩
    · intro pc' hpc'
      simp [handleDisconnectEffects, notify.info, hpc']
    · intro stream hstream track htrack
      simp [handleDisconnectEffects, notify.info, hstream, htrack]

/-- C5, on a manager that holds connection 4 and a stream with tracks 8 and 9. -/
theorem handleDisconnect_releases_transport_witness :
    (handleDisconnect { World.initial none none with
        mgr := ⟨some 4, some ⟨1, [8, 9]⟩, none, none, false⟩ }).mgr.peerConnection = none ∧
      (handleDisconnect { World.initial none none with
        mgr := ⟨some 4, some ⟨1, [8, 9]⟩, none, none, false⟩ }).mgr.remoteStream = none ∧
      (handleDisconnect { World.initial none none with
        mgr := ⟨some 4, some ⟨1, [8, 9]⟩, none, none, false⟩ }).log =
        [.pcClose 4, .trackStop 8, .trackStop 9, .dispatchEvent "deviceDisconnected",
          .notifyInfo "Disconnected from remote device"] :=
  ⟨(handleDisconnect_releases_transport _ _ (Or.inl rfl)).1,
    (handleDisconnect_releases_transport _ _ (Or.inl rfl)).2.1, by decide⟩

/-- One `handleDisconnect` dispatches the `deviceDisconnected` event once. -/
theorem count_dispatchEvent_handleDisconnectEffects (w : World) :
    (handleDisconnectEffects w).count (.dispatchEvent "deviceDisconnected") = 1 := by
  have hmap : ∀ tracks : List Nat,
      (tracks.map Effect.trackStop).count (.dispatchEvent "deviceDisconnected") = 0 := by
    intro tracks
    exact List.count_eq_zero.mpr (by simp)
  cases hp : w.mgr.peerConnection <;> cases hr : w.mgr.remoteStream <;>
    simp [handleDisconnectEffects, hp, hr, List.count_cons, hmap]

/-- `handleDisconnect` does not call `socket.disconnect()`. -/
theorem socketDisconnect_not_mem_handleDisconnectEffects (w : World) :
    Effect.socketDisconnect ∉ handleDisconnectEffects w := by
  cases hp : w.mgr.peerConnection <;> cases hr : w.mgr.remoteStream <;>
    simp [handleDisconnectEffects, hp, hr]

/-- After `handleDisconnect` on a connected socket, `initializeConnection`
runs to completion without parking and holds the next new connection. -/
theorem initializeConnection_after_handleDisconnect (w : World)
    (hs : w.mgr.socketConnected = true) :
    initializeConnection (handleDisconnect w) =
        .fulfilled (initializeConnection_resume (handleDisconnect w)) ∧
      (initializeConnection_resume (handleDisconnect w)).mgr.peerConnection =
        some w.nextPc := by
  have hs' : (handleDisconnect w).mgr.socketConnected = true := by
    rw [handleDisconnect_eq]
    simpa [socketConnected] using hs
  have hp' : (handleDisconnect w).mgr.peerConnection = none := by
    rw [handleDisconnect_eq]
  refine ⟨by simp [initializeConnection, hs', hp'], ?_⟩
  rw [initializeConnection_resume_eq, handleDisconnect_eq]

/-- C6. `handleDisconnect` is idempotent: a second call in succession leaves
the manager and the browser state as the first call left them, and its only
effects are the `deviceDisconnected` event and the info notification: it
closes no connection, stops no track and reports no error. -/
theorem handleDisconnect_idempotent (w : World) :
    (handleDisconnect (handleDisconnect w)).mgr = (handleDisconnect w).mgr ∧
      (handleDisconnect (handleDisconnect w)).connectionState =
        (handleDisconnect w).connectionState ∧
      (handleDisconnect (handleDisconnect w)).videoElement = (handleDisconnect w).videoElement ∧
      (handleDisconnect (handleDisconnect w)).nextPc = (handleDisconnect w).nextPc ∧
      (handleDisconnect (handleDisconnect w)).nextTimer = (handleDisconnect w).nextTimer ∧
      (handleDisconnect (handleDisconnect w)).ioError = (handleDisconnect w).ioError ∧
      (handleDisconnect (handleDisconnect w)).log = (handleDisconnect w).log ++
        [.dispatchEvent "deviceDisconnected", .notifyInfo "Disconnected from remote device"] ∧
      ∀ e ∈ (handleDisconnect (handleDisconnect w)).log.drop (handleDisconnect w).log.length,
        (∀ pc, e ≠ .pcClose pc) ∧ (∀ track, e ≠ .trackStop track) ∧
          ∀ message error, e ≠ .notifyError message error := by
  have hlog : (handleDisconnect (handleDisconnect w)).log = (handleDisconnect w).log ++
      [.dispatchEvent "deviceDisconnected", .notifyInfo "Disconnected from remote device"] := by
    rw [handleDisconnect_eq (handleDisconnect w), handleDisconnect_eq w]
    simp [handleDisconnectEffects]
  refine ⟨?_, ?_, ?_, ?_, ?_, ?_, hlog, ?_⟩
  · rw [handleDisconnect_eq (handleDisconnect w), handleDisconnect_eq w]
  · rw [handleDisconnect_eq (handleDisconnect w), handleDisconnect_eq w]
  · rw [handleDisconnect_eq (handleDisconnect w), handleDisconnect_eq w]
    cases w.videoElement <;> rfl
  · rw [handleDisconnect_eq (handleDisconnect w)]
  · rw [handleDisconnect_eq (handleDisconnect w)]
  · rw [handleDisconnect_eq (handleDisconnect w)]
  · rw [hlog, List.drop_left]
    intro e he
    simp only [List.mem_cons, List.mem_singleton, List.not_mem_nil, or_false] at he
    rcases he with he | he <;> subst he <;> simp

/-- C7. `handleDisconnect` leaves the signaling channel as it is: `socket`,
`connectionTimeout` and `isConnecting` are unchanged and `socket.disconnect()`
is not called; when the socket is connected, an `initializeConnection` that
follows is fulfilled without parking and holds a new connection. -/
theorem handleDisconnect_keeps_signaling (w : World) :
    (handleDisconnect w).mgr.socket = w.mgr.socket ∧
      (handleDisconnect w).mgr.connectionTimeout = w.mgr.connectionTimeout ∧
      (handleDisconnect w).mgr.isConnecting = w.mgr.isConnecting ∧
      Effect.socketDisconnect ∉ (handleDisconnect w).log.drop w.log.length ∧
      (w.mgr.socketConnected = true →
        initializeConnection (handleDisconnect w) =
            .fulfilled (initializeConnection_resume (handleDisconnect w)) ∧
          (initializeConnection_resume (handleDisconnect w)).mgr.peerConnection =
            some w.nextPc ∧
          Effect.newRTCPeerConnection w.nextPc ∈
            (initializeConnection_resume (handleDisconnect w)).log) := by
  refine ⟨?_, ?_, ?_, ?_, ?_⟩
  · rw [handleDisconnect_eq]
  · rw [handleDisconnect_eq]
  · rw [handleDisconnect_eq]
  · rw [handleDisconnect_eq]
    simpa using socketDisconnect_not_mem_handleDisconnectEffects w
  · intro hs
    refine ⟨(initializeConnection_after_handleDisconnect w hs).1,
      (initializeConnection_after_handleDisconnect w hs).2, ?_⟩
    rw [initializeConnection_resume_eq, handleDisconnect_eq]
    simp

/-- C7, on the manager of `sessionWorld`, whose socket is connected. -/
theorem handleDisconnect_keeps_signaling_witness :
    sessionWorld.mgr.socketConnected = true ∧
      initializeConnection (handleDisconnect sessionWorld) =
        .fulfilled (initializeConnection_resume (handleDisconnect sessionWorld)) ∧
      (initializeConnection_resume (handleDisconnect sessionWorld)).mgr.peerConnection =
        some 1 :=
  ⟨by decide,
    ((handleDisconnect_keeps_signaling sessionWorld).2.2.2.2 (by decide)).1,
    ((handleDisconnect_keeps_signaling sessionWorld).2.2.2.2 (by decide)).2.1⟩

/-- C8 as stated fails. On the manager of `sessionWorld`, which holds
connection 0, the socket reports `disconnect` (reason transport close), and in
another run `reconnect_failed`: afterwards connection 0 is still held, it has
not been closed and no `deviceDisconnected` event has been dispatched, while
the socket is down. -/
theorem socket_loss_closes_peerConnection_counterexample :
    sessionWorld.mgr.peerConnection = some 0 ∧
      ((SocketEvent.disconnect "transport close").fire sessionWorld).mgr.socketConnected
        = false ∧
      ((SocketEvent.disconnect "transport close").fire sessionWorld).mgr.peerConnection
        ≠ none ∧
      Effect.pcClose 0 ∉ ((SocketEvent.disconnect "transport close").fire sessionWorld).log ∧
      Effect.dispatchEvent "deviceDisconnected" ∉
        ((SocketEvent.disconnect "transport close").fire sessionWorld).log ∧
      (SocketEvent.reconnect_failed.fire sessionWorld).mgr.peerConnection ≠ none ∧
      Effect.pcClose 0 ∉ (SocketEvent.reconnect_failed.fire sessionWorld).log ∧
      Effect.dispatchEvent "deviceDisconnected" ∉
        (SocketEvent.reconnect_failed.fire sessionWorld).log := by
  decide

/-- C8, amended. When the socket reports a loss (`disconnect` with any reason,
or `reconnect_failed`) the manager only reports one error notification:
`peerConnection` and `remoteStream` are unchanged, no connection is closed and
no `deviceDisconnected` event is dispatched. -/
theorem socket_loss_only_notifies (w : World) (ev : SocketEvent)
    (h : (∃ reason, ev = .disconnect reason) ∨ ev = .reconnect_failed) :
    (ev.fire w).mgr.peerConnection = w.mgr.peerConnection ∧
      (ev.fire w).mgr.remoteStream = w.mgr.remoteStream ∧
      (ev.fire w).connectionState = w.connectionState ∧
      ∃ message, (ev.fire w).log = w.log ++ [.notifyError message none] := by
  rcases h with ⟨reason, h⟩ | h <;> subst h
  · exact ⟨rfl, rfl, rfl, _, rfl⟩
  · exact ⟨rfl, rfl, rfl, _, rfl⟩

/-- C8 amended, on the manager of `sessionWorld` at a `disconnect`. -/
theorem socket_loss_only_notifies_witness :
    ((SocketEvent.disconnect "ping timeout").fire sessionWorld).mgr.peerConnection =
        sessionWorld.mgr.peerConnection ∧
      ((SocketEvent.disconnect "ping timeout").fire sessionWorld).mgr.remoteStream =
        sessionWorld.mgr.remoteStream ∧
      ((SocketEvent.disconnect "ping timeout").fire sessionWorld).connectionState =
        sessionWorld.connectionState ∧
      ∃ message, ((SocketEvent.disconnect "ping timeout").fire sessionWorld).log =
        sessionWorld.log ++ [.notifyError message none] :=
  socket_loss_only_notifies sessionWorld (.disconnect "ping timeout") (Or.inl ⟨_, rfl⟩)

/-- What the connection-state callback does when the held connection `pc`
has moved to one of the three states of lines 250-252. -/
theorem connectionStateChange_teardown (w : World) (pc : Nat) (state : ConnState)
    (hp : w.mgr.peerConnection = some pc)
    (hstate : state = .disconnected ∨ state = .failed ∨ state = .closed) :
    connectionStateChange pc state w = .returned (handleDisconnect
      (notify.info ("WebRTC connection state: " ++ state.toString)
        { w with connectionState := Function.update w.connectionState pc state })) := by
  simp [connectionStateChange, onconnectionstatechange, hp, hstate]

/-- C9. When the held connection moves to failed or closed while the socket is
connected, the callback returns after tearing the transport down: the
connection is closed, `peerConnection` and `remoteStream` are null, exactly one
`deviceDisconnected` event is dispatched by the callback, the socket is kept
and not disconnected, and an `initializeConnection` that follows is fulfilled
with a new connection. -/
theorem connectionStateChange_failed_or_closed (w : World) (pc : Nat) (state : ConnState)
    (hp : w.mgr.peerConnection = some pc) (hstate : state = .failed ∨ state = .closed)
    (hs : w.mgr.socketConnected = true) :
    ∃ w', connectionStateChange pc state w = .returned w' ∧
      w'.mgr.peerConnection = none ∧ w'.mgr.remoteStream = none ∧
      w'.log = w.log ++ [.notifyInfo ("WebRTC connection state: " ++ state.toString)] ++
        handleDisconnectEffects w ∧
      Effect.pcClose pc ∈ w'.log.drop w.log.length ∧
      (w'.log.drop w.log.length).count (.dispatchEvent "deviceDisconnected") = 1 ∧
      w'.mgr.socket = w.mgr.socket ∧ w'.mgr.socketConnected = true ∧
      Effect.socketDisconnect ∉ w'.log.drop w.log.length ∧
      ∃ w'', initializeConnection w' = .fulfilled w'' ∧
        w''.mgr.peerConnection = some w.nextPc := by
  have hrun := connectionStateChange_teardown w pc state hp (Or.inr hstate)
  have hlog : (handleDisconnect
      (notify.info ("WebRTC connection state: " ++ state.toString)
        { w with connectionState := Function.update w.connectionState pc state })).log =
      w.log ++ [.notifyInfo ("WebRTC connection state: " ++ state.toString)] ++
        handleDisconnectEffects w := by
    rw [handleDisconnect_eq]
    rfl
  have hcount := count_dispatchEvent_handleDisconnectEffects w
  have hsock := socketDisconnect_not_mem_handleDisconnectEffects w
  refine ⟨_, hrun, ?_, ?_, hlog, ?_, ?_, ?_, ?_, ?_, ?_⟩
  · rw [handleDisconnect_eq]
  · rw [handleDisconnect_eq]
  · rw [hlog, List.append_assoc, List.drop_left]
    simp [handleDisconnectEffects, hp]
  · rw [hlog, List.append_assoc, List.drop_left, List.count_append, hcount]
    simp [List.count_cons]
  · rw [handleDisconnect_eq]
    rfl
  · rw [handleDisconnect_eq]
    simpa [socketConnected] using hs
  · rw [hlog, List.append_assoc, List.drop_left]
    simpa using hsock
  · exact ⟨_, initializeConnection_after_handleDisconnect
      (notify.info ("WebRTC connection state: " ++ state.toString)
        { w with connectionState := Function.update w.connectionState pc state }) hs⟩

/-- C9, on the manager of `sessionWorld` when connection 0 fails. -/
theorem connectionStateChange_failed_or_closed_witness :
    sessionWorld.mgr.peerConnection = some 0 ∧ sessionWorld.mgr.socketConnected = true ∧
      (connectionStateChange 0 .failed sessionWorld).world.mgr.peerConnection = none ∧
      ((connectionStateChange 0 .failed sessionWorld).world.log.drop
        sessionWorld.log.length).count (.dispatchEvent "deviceDisconnected") = 1 :=
  ⟨by decide, by decide,
    by
      obtain ⟨w', hrun, hpc, _⟩ := connectionStateChange_failed_or_closed sessionWorld 0
        .failed (by decide) (Or.inl rfl) (by decide)
      rw [hrun]
      exact hpc,
    by decide⟩

/-- C10 as stated fails. On the manager of `sessionWorld`, which holds
connection 0, the connection reports the state disconnected: the callback
closes it at once and `peerConnection` becomes null, although the state never
reached failed. -/
theorem connectionStateChange_disconnected_keeps_connection_counterexample :
    sessionWorld.mgr.peerConnection = some 0 ∧
      (connectionStateChange 0 .disconnected sessionWorld).world.mgr.peerConnection = none ∧
      Effect.pcClose 0 ∈ (connectionStateChange 0 .disconnected sessionWorld).world.log ∧
      Effect.pcClose 0 ∉ sessionWorld.log ∧
      (connectionStateChange 0 .disconnected sessionWorld).world.connectionState 0 = .closed := by
  decide

/-- C10, amended. When the held connection reports the state disconnected the
transport is torn down at once, as for failed and closed: the connection is
closed in that callback, `peerConnection` and `remoteStream` become null and
the `deviceDisconnected` event is dispatched; the manager state is the one a
report of failed leaves. -/
theorem connectionStateChange_disconnected_tears_down (w : World) (pc : Nat)
    (hp : w.mgr.peerConnection = some pc) :
    ∃ w', connectionStateChange pc .disconnected w = .returned w' ∧
      w'.mgr.peerConnection = none ∧ w'.mgr.remoteStream = none ∧
      w'.log = w.log ++ [.notifyInfo "WebRTC connection state: disconnected"] ++
        handleDisconnectEffects w ∧
      Effect.pcClose pc ∈ w'.log.drop w.log.length ∧
      Effect.dispatchEvent "deviceDisconnected" ∈ w'.log.drop w.log.length ∧
      w'.connectionState pc = .closed ∧
      w'.mgr = (connectionStateChange pc .failed w).world.mgr := by
  have hrun := connectionStateChange_teardown w pc .disconnected hp (Or.inl rfl)
  have hfailed := connectionStateChange_teardown w pc .failed hp (Or.inr (Or.inl rfl))
  have hlog : (handleDisconnect
      (notify.info ("WebRTC connection state: " ++ ConnState.disconnected.toString)
        { w with connectionState := Function.update w.connectionState pc .disconnected })).log =
      w.log ++ [.notifyInfo "WebRTC connection state: disconnected"] ++
        handleDisconnectEffects w := by
    rw [handleDisconnect_eq]
    rfl
  refine ⟨_, hrun, ?_, ?_, hlog, ?_, ?_, ?_, ?_⟩
  · rw [handleDisconnect_eq]
  · rw [handleDisconnect_eq]
  · rw [hlog, List.append_assoc, List.drop_left]
    simp [handleDisconnectEffects, hp]
  · rw [hlog, List.append_assoc, List.drop_left]
    simp [handleDisconnectEffects]
  · rw [handleDisconnect_eq]
    simp [notify.info, hp]
  · rw [hfailed, Outcome.world, handleDisconnect_eq, handleDisconnect_eq]
    rfl

/-- C10 amended, on the manager of `sessionWorld`. -/
theorem connectionStateChange_disconnected_tears_down_witness :
    sessionWorld.mgr.peerConnection = some 0 ∧
      ∃ w', connectionStateChange 0 .disconnected sessionWorld = .returned w' ∧
        w'.mgr.peerConnection = none ∧ w'.connectionState 0 = .closed :=
  ⟨by decide,
    by
      obtain ⟨w', hrun, hpc, _, _, _, _, hclosed, _⟩ :=
        connectionStateChange_disconnected_tears_down sessionWorld 0 (by decide)
      exact ⟨w', hrun, hpc, hclosed⟩⟩

end ConnectionManager

/-! ## Negotiation messages -/

namespace ConnectionManager

/-- An offer whose three promises resolve is answered: the four effects, in
the order of lines 191-196. -/
theorem settleOffer_resolved (w : World) (pc : Nat) (socket : Socket)
    (offer answer v₁ v₃ : String)
    (hp : w.mgr.peerConnection = some pc) (hs : w.mgr.socket = some socket) :
    settleOffer (onOffer offer w) [.resolved v₁, .resolved answer, .resolved v₃] =
      .fulfilled { w with log := w.log ++ [.pcSetRemoteDescription pc offer, .pcCreateAnswer pc,
        .pcSetLocalDescription pc answer, .socketEmit "answer" answer] } := by
  simp [settleOffer, onOffer, onOffer_resume, hp, hs, World.emit]

/-- C11. An `offer` received while connection `pc` is held and the socket is
there: when the three promises resolve, the handler calls
`setRemoteDescription(offer)`, `createAnswer()` and
`setLocalDescription(answer)` on `pc` in that order and then emits one
`answer` message with that answer. When the first, the second or the third
promise rejects, the handler stops there and reports the error through
`handleError`; no `answer` is emitted. In every case the promise of the
handler is fulfilled: no exception escapes. -/
theorem onOffer_answers (w : World) (pc : Nat) (socket : Socket)
    (offer answer v₁ v₃ : String)
    (hp : w.mgr.peerConnection = some pc) (hs : w.mgr.socket = some socket) :
    settleOffer (onOffer offer w) [.resolved v₁, .resolved answer, .resolved v₃] =
        .fulfilled { w with log := w.log ++ [.pcSetRemoteDescription pc offer,
          .pcCreateAnswer pc, .pcSetLocalDescription pc answer,
          .socketEmit "answer" answer] } ∧
      (∀ e rest, settleOffer (onOffer offer w) (.rejected e :: rest) =
        .fulfilled { w with log := w.log ++ [.pcSetRemoteDescription pc offer,
          .notifyError (.text "Failed to process offer") (some e)] }) ∧
      (∀ e rest, settleOffer (onOffer offer w) (.resolved v₁ :: .rejected e :: rest) =
        .fulfilled { w with log := w.log ++ [.pcSetRemoteDescription pc offer,
          .pcCreateAnswer pc, .notifyError (.text "Failed to process offer") (some e)] }) ∧
      (∀ e rest, settleOffer (onOffer offer w)
          (.resolved v₁ :: .resolved answer :: .rejected e :: rest) =
        .fulfilled { w with log := w.log ++ [.pcSetRemoteDescription pc offer,
          .pcCreateAnswer pc, .pcSetLocalDescription pc answer,
          .notifyError (.text "Failed to process offer") (some e)] }) := by
  refine ⟨settleOffer_resolved w pc socket offer answer v₁ v₃ hp hs, ?_, ?_, ?_⟩ <;>
    intro e rest <;>
    simp [settleOffer, onOffer, onOffer_resume, hp, handleError, notify.error, World.emit]

/-- C11, on the manager of `sessionWorld`: the offer is answered. -/
theorem onOffer_answers_witness :
    sessionWorld.mgr.peerConnection = some 0 ∧ sessionWorld.mgr.socket = some ⟨true⟩ ∧
      (settleOffer (onOffer "offer" sessionWorld)
        [.resolved "", .resolved "answer", .resolved ""]).world.log =
      sessionWorld.log ++ [.pcSetRemoteDescription 0 "offer", .pcCreateAnswer 0,
        .pcSetLocalDescription 0 "answer", .socketEmit "answer" "answer"] :=
  ⟨by decide, by decide, by
    rw [(onOffer_answers sessionWorld 0 ⟨true⟩ "offer" "answer" "" "" (by decide)
      (by decide)).1]
    rfl⟩

/-- C12 as stated fails. On the manager of `sessionWorld` a second offer
arrives while the handler of the first is parked at `setRemoteDescription`:
`setRemoteDescription` is called with the second offer too. And when both
offers are processed one after the other, both are answered and no error is
reported. -/
theorem second_offer_dropped_counterexample :
    (onOffer "offer-2" (onOffer "offer-1" sessionWorld).world).world.remoteDescriptions =
        [(0, "offer-1"), (0, "offer-2")] ∧
      (settleOffer (onOffer "offer-2" (settleOffer (onOffer "offer-1" sessionWorld)
          [.resolved "", .resolved "answer-1", .resolved ""]).world)
          [.resolved "", .resolved "answer-2", .resolved ""]).world.remoteDescriptions =
        [(0, "offer-1"), (0, "offer-2")] ∧
      (settleOffer (onOffer "offer-2" (settleOffer (onOffer "offer-1" sessionWorld)
          [.resolved "", .resolved "answer-1", .resolved ""]).world)
          [.resolved "", .resolved "answer-2", .resolved ""]).world.emitted =
        [("answer", "answer-1"), ("answer", "answer-2")] ∧
      (settleOffer (onOffer "offer-2" (settleOffer (onOffer "offer-1" sessionWorld)
          [.resolved "", .resolved "answer-1", .resolved ""]).world)
          [.resolved "", .resolved "answer-2", .resolved ""]).world.errors = [] := by
  decide

/-- C12, amended. Every offer received while a connection is held is
processed in the same way, whether or not an earlier offer was received in
the session: a second offer that arrives while the first is being negotiated
is passed to `setRemoteDescription` at once, and of two offers processed one
after the other whose promises resolve, both are answered, in order; no
error is reported for the second. -/
theorem every_offer_is_processed (w : World) (pc : Nat) (socket : Socket)
    (offer₁ answer₁ offer₂ answer₂ v : String)
    (hp : w.mgr.peerConnection = some pc) (hs : w.mgr.socket = some socket) :
    onOffer offer₂ (onOffer offer₁ w).world =
        .parked .setRemoteDescription { w with log := w.log ++
          [.pcSetRemoteDescription pc offer₁, .pcSetRemoteDescription pc offer₂] } ∧
      settleOffer (onOffer offer₂ (settleOffer (onOffer offer₁ w)
          [.resolved v, .resolved answer₁, .resolved v]).world)
          [.resolved v, .resolved answer₂, .resolved v] =
        .fulfilled { w with log := w.log ++
          [.pcSetRemoteDescription pc offer₁, .pcCreateAnswer pc,
            .pcSetLocalDescription pc answer₁, .socketEmit "answer" answer₁,
            .pcSetRemoteDescription pc offer₂, .pcCreateAnswer pc,
            .pcSetLocalDescription pc answer₂, .socketEmit "answer" answer₂] } := by
  constructor
  · simp [onOffer, hp, Async.world, World.emit]
  · rw [settleOffer_resolved w pc socket offer₁ answer₁ v v hp hs, Async.world,
      settleOffer_resolved { w with log := w.log ++ [.pcSetRemoteDescription pc offer₁,
        .pcCreateAnswer pc, .pcSetLocalDescription pc answer₁,
        .socketEmit "answer" answer₁] } pc socket offer₂ answer₂ v v hp hs]
    simp

/-- C12 amended, on the manager of `sessionWorld`. -/
theorem every_offer_is_processed_witness :
    sessionWorld.mgr.peerConnection = some 0 ∧ sessionWorld.mgr.socket = some ⟨true⟩ ∧
      (onOffer "offer-2" (onOffer "offer-1" sessionWorld).world).world.log =
        sessionWorld.log ++
          [.pcSetRemoteDescription 0 "offer-1", .pcSetRemoteDescription 0 "offer-2"] :=
  ⟨by decide, by decide, by
    rw [(every_offer_is_processed sessionWorld 0 ⟨true⟩ "offer-1" "" "offer-2" "" ""
      (by decide) (by decide)).1]
    rfl⟩

/-- C13. An `offer` or an `ice-candidate` message received while no connection
is held is dropped: the handler is fulfilled (no exception escapes), its only
effect is the error notification, so nothing is emitted on the socket, no
transport primitive is called and every field of the manager is unchanged. -/
theorem message_without_peerConnection_dropped (w : World) (payload : String)
    (hp : w.mgr.peerConnection = none) :
    onOffer payload w = .fulfilled { w with log := w.log ++
        [.notifyError (.text "Failed to process offer")
          (some ⟨"Peer connection not initialized"⟩)] } ∧
      onIceCandidate payload w = .fulfilled { w with log := w.log ++
        [.notifyError (.text "Failed to add ICE candidate")
          (some ⟨"Peer connection not initialized"⟩)] } := by
  constructor <;>
    simp [onOffer, onIceCandidate, hp, handleError, notify.error, World.emit]

/-- C13, on a manager whose socket is open and which holds no connection. -/
theorem message_without_peerConnection_dropped_witness :
    connectingWorld.mgr.peerConnection = none ∧
      (onOffer "offer" connectingWorld).world.mgr = connectingWorld.mgr ∧
      (onOffer "offer" connectingWorld).world.emitted = [] ∧
      (onIceCandidate "candidate" connectingWorld).world.mgr = connectingWorld.mgr ∧
      (onIceCandidate "candidate" connectingWorld).world.errors =
        [(.text "Failed to add ICE candidate", some ⟨"Peer connection not initialized"⟩)] :=
  ⟨by decide,
    by rw [(message_without_peerConnection_dropped connectingWorld "offer" (by decide)).1]; rfl,
    by decide,
    by
      rw [(message_without_peerConnection_dropped connectingWorld "candidate" (by decide)).2]
      rfl,
    by decide⟩

/-- An `ice-candidate` message on a manager that holds `pc`: the candidate is
passed on and the manager is as before. -/
theorem step_iceCandidate (w : World) (pc : Nat) (candidate : String)
    (hp : w.mgr.peerConnection = some pc) :
    ((Step.iceCandidate candidate).run w).mgr = w.mgr ∧
      ((Step.iceCandidate candidate).run w).addedCandidates =
        w.addedCandidates ++ [(pc, candidate)] := by
  simp [Step.run, onIceCandidate, hp, Async.world, World.addedCandidates,
    List.filterMap_append]

/-- The settlement of an `addIceCandidate` promise passes no candidate on. -/
theorem step_iceCandidateSettled (w : World) (result : Settled) :
    ((Step.iceCandidateSettled result).run w).mgr = w.mgr ∧
      ((Step.iceCandidateSettled result).run w).addedCandidates = w.addedCandidates := by
  cases result <;>
    simp [Step.run, onIceCandidate_resume, Async.world, World.addedCandidates, handleError,
      notify.error, List.filterMap_append]

/-- C14 as stated fails. On the manager of `sessionWorld` no remote
description has been set; an `ice-candidate` message arrives and its candidate
is passed to `addIceCandidate` of connection 0 at once. -/
theorem iceCandidate_buffered_counterexample :
    sessionWorld.remoteDescriptions = [] ∧ sessionWorld.addedCandidates = [] ∧
      (onIceCandidate "candidate-1" sessionWorld).world.remoteDescriptions = [] ∧
      (onIceCandidate "candidate-1" sessionWorld).world.addedCandidates =
        [(0, "candidate-1")] := by
  decide

/-- C14, amended. A candidate received while connection `pc` is held is passed
to `addIceCandidate` of `pc` at once, whether or not a remote description has
been set; the manager keeps no buffer (its fields are unchanged) and there is
no cap: of any number of candidates received in a row, every one is passed on,
in arrival order. A candidate the transport rejects is reported through
`handleError` and not passed again. -/
theorem iceCandidate_passed_at_once (w : World) (pc : Nat) (candidate : String)
    (candidates : List String) (e : JsError) (hp : w.mgr.peerConnection = some pc) :
    onIceCandidate candidate w =
        .parked () { w with log := w.log ++ [.pcAddIceCandidate pc candidate] } ∧
      onIceCandidate_resume (.rejected e) w = .fulfilled { w with log := w.log ++
        [.notifyError (.text "Failed to add ICE candidate") (some e)] } ∧
      (runSteps (candidates.map Step.iceCandidate) w).mgr = w.mgr ∧
      (runSteps (candidates.map Step.iceCandidate) w).addedCandidates =
        w.addedCandidates ++ candidates.map fun c => (pc, c) := by
  refine ⟨by simp [onIceCandidate, hp, World.emit],
    by simp [onIceCandidate_resume, handleError, notify.error, World.emit], ?_⟩
  induction candidates generalizing w with
  | nil => simp [runSteps]
  | cons c cs ih =>
    have hstep := step_iceCandidate w pc c hp
    have := ih ((Step.iceCandidate c).run w) (by rw [hstep.1]; exact hp)
    simp only [runSteps, List.map_cons, List.foldl_cons] at this ⊢
    rw [this.1, this.2, hstep.1, hstep.2]
    simp

/-- C14 amended, on the manager of `sessionWorld`, before any offer. -/
theorem iceCandidate_passed_at_once_witness :
    sessionWorld.mgr.peerConnection = some 0 ∧ sessionWorld.remoteDescriptions = [] ∧
      (runSteps (["candidate-1", "candidate-2"].map Step.iceCandidate)
        sessionWorld).addedCandidates =
      sessionWorld.addedCandidates ++
        ["candidate-1", "candidate-2"].map fun c => (0, c) :=
  ⟨by decide, by decide,
    (iceCandidate_passed_at_once sessionWorld 0 "" ["candidate-1", "candidate-2"] ⟨""⟩
      (by decide)).2.2.2⟩

/-- C15. While connection `pc` is held, for every sequence of `ice-candidate`
messages, interleaved in any way with the settlements of the
`addIceCandidate` promises, `addIceCandidate` is called on `pc` once for each
message, with its candidate, in the order the messages arrived. -/
theorem addIceCandidate_in_arrival_order (w : World) (pc : Nat) (steps : List Step)
    (hp : w.mgr.peerConnection = some pc)
    (hsteps : ∀ step ∈ steps,
      (∃ candidate, step = .iceCandidate candidate) ∨
        ∃ result, step = .iceCandidateSettled result) :
    (runSteps steps w).mgr = w.mgr ∧
      (runSteps steps w).addedCandidates = w.addedCandidates ++
        steps.filterMap fun step => match step with
          | .iceCandidate candidate => some (pc, candidate)
          | _ => none := by
  induction steps generalizing w with
  | nil => simp [runSteps]
  | cons step steps ih =>
    have hrest : ∀ step ∈ steps,
        (∃ candidate, step = .iceCandidate candidate) ∨
          ∃ result, step = .iceCandidateSettled result :=
      fun st hst => hsteps st (List.mem_cons_of_mem _ hst)
    rcases hsteps step (List.mem_cons_self _ _) with ⟨candidate, hstep⟩ | ⟨result, hstep⟩
    · subst hstep
      have h1 := step_iceCandidate w pc candidate hp
      have := ih ((Step.iceCandidate candidate).run w) (by rw [h1.1]; exact hp) hrest
      simp only [runSteps, List.foldl_cons] at this ⊢
      rw [this.1, this.2, h1.1, h1.2]
      simp
    · subst hstep
      have h1 := step_iceCandidateSettled w result
      have := ih ((Step.iceCandidateSettled result).run w) (by rw [h1.1]; exact hp) hrest
      simp only [runSteps, List.foldl_cons] at this ⊢
      rw [this.1, this.2, h1.1, h1.2]
      simp

/-- C15, on the manager of `sessionWorld`: three candidates, the promise of
the second rejected before the third arrives. -/
theorem addIceCandidate_in_arrival_order_witness :
    sessionWorld.mgr.peerConnection = some 0 ∧
      (runSteps [.iceCandidate "a", .iceCandidate "b", .iceCandidateSettled (.resolved ""),
        .iceCandidateSettled (.rejected ⟨"InvalidStateError"⟩), .iceCandidate "c",
        .iceCandidateSettled (.resolved "")] sessionWorld).addedCandidates =
      [(0, "a"), (0, "b"), (0, "c")] :=
  ⟨by decide,
    (addIceCandidate_in_arrival_order sessionWorld 0
      [.iceCandidate "a", .iceCandidate "b", .iceCandidateSettled (.resolved ""),
        .iceCandidateSettled (.rejected ⟨"InvalidStateError"⟩), .iceCandidate "c",
        .iceCandidateSettled (.resolved "")] (by decide) (by
          intro step hstep
          simp only [List.mem_cons, List.mem_singleton, List.not_mem_nil, or_false] at hstep
          rcases hstep with h | h | h | h | h | h <;> subst h <;> simp)).2⟩

/-- `handleDisconnect` emits nothing on the socket. -/
theorem emitted_handleDisconnectEffects (w : World) :
    (handleDisconnectEffects w).filterMap (fun e => match e with
      | .socketEmit event payload => some (event, payload)
      | _ => none) = [] := by
  have hmap : ∀ tracks : List Nat, (tracks.map Effect.trackStop).filterMap (fun e =>
      match e with
      | .socketEmit event payload => some (event, payload)
      | _ => none) = [] := by
    intro tracks
    induction tracks with
    | nil => rfl
    | cons t ts ih => simp [List.filterMap_cons]
  cases hp : w.mgr.peerConnection <;> cases hr : w.mgr.remoteStream <;>
    simp [handleDisconnectEffects, hp, hr, List.filterMap_append, hmap]

/-- C16 as stated fails. A manager whose socket has connected starts a session:
`initializeConnection` creates connection 0, installs its callbacks and
notifies, and that is all. No offer is created and nothing is emitted on the
socket. -/
theorem initializeConnection_sends_offer_counterexample :
    (SocketEvent.connect.fire connectingWorld).mgr.socketConnected = true ∧
      (runTask [.initializeConnection] (SocketEvent.connect.fire connectingWorld)).log =
        (SocketEvent.connect.fire connectingWorld).log ++
          [.newRTCPeerConnection 0, .pcSetHandlers 0,
            .notifyInfo "Initializing peer connection..."] ∧
      (runTask [.initializeConnection] (SocketEvent.connect.fire connectingWorld)).emitted
        = [] := by
  decide

/-- C16, amended. `initializeConnection` with the socket connected tears an
existing session down, creates the new connection, installs its callbacks and
notifies; it creates no offer and emits nothing on the socket. The manager
only answers the offers it receives. -/
theorem initializeConnection_sends_nothing (w : World)
    (hs : w.mgr.socketConnected = true) :
    (runTask [.initializeConnection] w).log =
        w.log ++ (if w.mgr.peerConnection.isSome then handleDisconnectEffects w else []) ++
          [.newRTCPeerConnection w.nextPc, .pcSetHandlers w.nextPc,
            .notifyInfo "Initializing peer connection..."] ∧
      (runTask [.initializeConnection] w).emitted = w.emitted := by
  cases hp : w.mgr.peerConnection with
  | none =>
    have hrun : runTask [.initializeConnection] w = initializeConnection_resume w := by
      simp [runTask, Call.run, initializeConnection, hs, hp, drainMicrotasks]
    rw [hrun, initializeConnection_resume_eq]
    simp [World.emitted, List.filterMap_append]
  | some old =>
    have hrun : runTask [.initializeConnection] w =
        initializeConnection_resume (handleDisconnect w) := by
      simp [runTask, Call.run, initializeConnection, hs, hp, drainMicrotasks]
    rw [hrun, initializeConnection_resume_eq, handleDisconnect_eq]
    simp [World.emitted, List.filterMap_append, emitted_handleDisconnectEffects]

/-- C16 amended, on the manager of `sessionWorld`, which holds connection 0. -/
theorem initializeConnection_sends_nothing_witness :
    sessionWorld.mgr.socketConnected = true ∧
      (runTask [.initializeConnection] sessionWorld).emitted = sessionWorld.emitted :=
  ⟨by decide, (initializeConnection_sends_nothing sessionWorld (by decide)).2⟩

/-- C17 as stated fails. The manager of `sessionWorld` starts a second session:
connection 0 is closed and connection 1 is held. A `track` event of
connection 0 then replaces `remoteStream`, and an `icecandidate` event of
connection 0 is emitted on the socket. After a `handleDisconnect` instead, a
connection-state event of connection 0 throws. The same holds for a superseded
connection that is still open: after two overlapping `initializeConnection`
calls connection 2 is held, and a `track` event of connection 1 replaces
`remoteStream`. -/
theorem stale_callback_is_noop_counterexample :
    (runTask [.initializeConnection] sessionWorld).mgr.peerConnection = some 1 ∧
      (runTask [.initializeConnection] sessionWorld).closed = [0] ∧
      (runTask [.initializeConnection] sessionWorld).mgr.remoteStream = none ∧
      (trackEvent 0 (some ⟨5, [6]⟩)
        (runTask [.initializeConnection] sessionWorld)).mgr.remoteStream = some ⟨5, [6]⟩ ∧
      (iceCandidateEvent 0 (some "candidate")
        (runTask [.initializeConnection] sessionWorld)).emitted =
          [("ice-candidate", "candidate")] ∧
      (handleDisconnect sessionWorld).closed = [0] ∧
      (match connectionStateChange 0 .failed (handleDisconnect sessionWorld) with
        | .threw _ _ => true
        | .returned _ => false) = true ∧
      (runTask [.initializeConnection, .initializeConnection] sessionWorld).unclosed
        = [1, 2] ∧
      (runTask [.initializeConnection, .initializeConnection]
        sessionWorld).mgr.peerConnection = some 2 ∧
      (trackEvent 1 (some ⟨5, [6]⟩)
        (runTask [.initializeConnection, .initializeConnection]
          sessionWorld)).mgr.remoteStream = some ⟨5, [6]⟩ := by
  decide

/-- C17, amended. A callback of a connection the manager no longer holds runs
the same code as one of the held connection, with no check of who fired it: a
`track` event sets `remoteStream` to the stream of the event, an
`icecandidate` event with a candidate is emitted on the socket when there is
one, and a connection-state event throws a TypeError when no connection is
held and otherwise acts on the state of the held connection `held`: it tears
it down when that state is disconnected, failed or closed. -/
theorem stale_callback_runs_unguarded (w : World) (pc : Nat)
    (hinstalled : Effect.pcSetHandlers pc ∈ w.log)
    (hstale : w.mgr.peerConnection ≠ some pc) :
    (∀ stream, (trackEvent pc stream w).mgr.remoteStream = stream) ∧
      (∀ candidate socket, w.mgr.socket = some socket →
        (iceCandidateEvent pc (some candidate) w).log =
          w.log ++ [.socketEmit "ice-candidate" candidate]) ∧
      (∀ state, w.mgr.peerConnection = none →
        connectionStateChange pc state w = .threw ⟨"Cannot read properties of null"⟩
          { w with connectionState := Function.update w.connectionState pc state }) ∧
      (∀ state held, w.mgr.peerConnection = some held →
        (w.connectionState held = .disconnected ∨ w.connectionState held = .failed ∨
          w.connectionState held = .closed) →
        (connectionStateChange pc state w).world.mgr.peerConnection = none ∧
          Effect.pcClose held ∈ (connectionStateChange pc state w).world.log) := by
  refine ⟨?_, ?_, ?_, ?_⟩
  · intro stream
    cases hv : w.videoElement <;>
      simp [trackEvent, hinstalled, ontrack, hv, handleError, notify.error]
  · intro candidate socket hs
    simp [iceCandidateEvent, hinstalled, onicecandidate, hs]
  · intro state hnone
    simp [connectionStateChange, onconnectionstatechange, hnone]
  · intro state held hheld hstate
    have hne : held ≠ pc := by
      intro h
      exact hstale (by rw [hheld, h])
    have hread : Function.update w.connectionState pc state held = w.connectionState held :=
      Function.update_noteq hne _ _
    have hrun : connectionStateChange pc state w = .returned (handleDisconnect
        (notify.info ("WebRTC connection state: " ++ (w.connectionState held).toString)
          { w with connectionState := Function.update w.connectionState pc state })) := by
      simp [connectionStateChange, onconnectionstatechange, hheld, hread, hstate]
    rw [hrun, Outcome.world, handleDisconnect_eq]
    refine ⟨rfl, ?_⟩
    simp [handleDisconnectEffects, notify.info, hheld]

/-- C17 amended, on the manager of `sessionWorld` after a second
`initializeConnection`: connection 0 is stale. -/
theorem stale_callback_runs_unguarded_witness :
    Effect.pcSetHandlers 0 ∈ (runTask [.initializeConnection] sessionWorld).log ∧
      (runTask [.initializeConnection] sessionWorld).mgr.peerConnection ≠ some 0 ∧
      (trackEvent 0 (some ⟨5, [6]⟩)
        (runTask [.initializeConnection] sessionWorld)).mgr.remoteStream = some ⟨5, [6]⟩ :=
  ⟨by decide, by decide,
    (stale_callback_runs_unguarded (runTask [.initializeConnection] sessionWorld) 0
      (by decide) (by decide)).1 _⟩

/-- The one event `handleDisconnect` dispatches. -/
theorem dispatched_handleDisconnectEffects (w : World) :
    (handleDisconnectEffects w).filterMap (fun e => match e with
      | .dispatchEvent type => some type
      | _ => none) = ["deviceDisconnected"] := by
  have hmap : ∀ tracks : List Nat, (tracks.map Effect.trackStop).filterMap (fun e =>
      match e with
      | .dispatchEvent type => some type
      | _ => none) = [] := by
    intro tracks
    induction tracks with
    | nil => rfl
    | cons t ts ih => simp [List.filterMap_cons]
  cases hp : w.mgr.peerConnection <;> cases hr : w.mgr.remoteStream <;>
    simp [handleDisconnectEffects, hp, hr, List.filterMap_append, hmap]

/-- C18 as stated fails. The manager of `sessionWorld` ends its session, starts
a second one (connection 1) and ends that one too. The two events dispatched,
one for each session, are the same `Event` of type deviceDisconnected with no
payload: nothing tells the first from the second. -/
theorem deviceDisconnected_carries_generation_counterexample :
    (runTasks [[.handleDisconnect], [.initializeConnection], [.handleDisconnect]]
        sessionWorld).created = [0, 1] ∧
      (runTasks [[.handleDisconnect], [.initializeConnection], [.handleDisconnect]]
        sessionWorld).closed = [0, 1] ∧
      (runTasks [[.handleDisconnect], [.initializeConnection], [.handleDisconnect]]
        sessionWorld).log.filter (fun e => match e with
          | .dispatchEvent _ => true
          | _ => false) =
        [.dispatchEvent "deviceDisconnected", .dispatchEvent "deviceDisconnected"] := by
  decide

/-- C18, amended. The event `handleDisconnect` dispatches is the same in every
state of the manager: one `Event` of type deviceDisconnected, with no payload
and no session counter; the manager has no such counter. -/
theorem deviceDisconnected_is_constant (w w' : World) :
    (handleDisconnect w).dispatched = w.dispatched ++ ["deviceDisconnected"] ∧
      (handleDisconnect w).log.drop w.log.length = handleDisconnectEffects w ∧
      (handleDisconnectEffects w).filter (fun e => match e with
          | .dispatchEvent _ => true
          | _ => false) =
        (handleDisconnectEffects w').filter (fun e => match e with
          | .dispatchEvent _ => true
          | _ => false) := by
  have hfilter : ∀ w : World, (handleDisconnectEffects w).filter (fun e => match e with
      | .dispatchEvent _ => true
      | _ => false) = [.dispatchEvent "deviceDisconnected"] := by
    intro w
    have hmap : ∀ tracks : List Nat, (tracks.map Effect.trackStop).filter (fun e =>
        match e with
        | .dispatchEvent _ => true
        | _ => false) = [] := by
      intro tracks
      induction tracks with
      | nil => rfl
      | cons t ts ih => simp [List.filter_cons]
    cases hp : w.mgr.peerConnection <;> cases hr : w.mgr.remoteStream <;>
      simp [handleDisconnectEffects, hp, hr, List.filter_append, hmap, List.filter_cons]
  refine ⟨?_, ?_, ?_⟩
  · rw [handleDisconnect_eq]
    simp [World.dispatched, List.filterMap_append, dispatched_handleDisconnectEffects]
  · rw [handleDisconnect_eq]
    simp
  · rw [hfilter w, hfilter w']

/-! ## The socket: timer and reconnection -/

/-- C19 as stated fails. The socket of `connectingWorld` has not connected; the
socket reports a first reconnection attempt and then the 5-second timer fires:
the callback reports nothing, although the socket is still not connected. -/
theorem timeout_reported_counterexample :
    ((SocketEvent.reconnect_attempt 1).fire connectingWorld).mgr.socket = some ⟨false⟩ ∧
      ((SocketEvent.reconnect_attempt 1).fire connectingWorld).timerPending 1 = true ∧
      (fireTimeout 1 "http://localhost:3000"
        ((SocketEvent.reconnect_attempt 1).fire connectingWorld)).world.log =
        ((SocketEvent.reconnect_attempt 1).fire connectingWorld).log ++ [.timeoutFired 1] ∧
      (fireTimeout 1 "http://localhost:3000"
        ((SocketEvent.reconnect_attempt 1).fire connectingWorld)).world.errors = [] := by
  decide

/-- A timer that has fired is no longer pending. -/
theorem timerPending_of_fired (timer : Nat) (w : World)
    (h : Effect.timeoutFired timer ∈ w.log) : w.timerPending timer = false := by
  simp [World.timerPending, h]

/-- C19, amended. When the pending timer fires while the socket has not
connected, the callback reports the connection-timeout error once if no
reconnection attempt is under way (`isConnecting` false) and reports nothing
if one is; in both cases it leaves every field of the manager as it is and
does not disconnect the socket, and the timer does not fire a second time. -/
theorem timeout_reported_unless_connecting (w : World) (timer : Nat) (serverUrl : String)
    (hs : w.mgr.socket = some ⟨false⟩) (hpending : w.timerPending timer = true) :
    ∃ w', fireTimeout timer serverUrl w = .returned w' ∧
      w'.mgr = w.mgr ∧
      w'.log = w.log ++ [.timeoutFired timer] ++
        (if w.mgr.isConnecting then []
          else [.notifyError
            (.text ("Connection timeout: Unable to reach server at " ++ serverUrl)) none]) ∧
      fireTimeout timer serverUrl w' = .returned w' := by
  cases hc : w.mgr.isConnecting with
  | true =>
    refine ⟨w.emit (.timeoutFired timer), ?_, rfl, by simp, ?_⟩
    · simp [fireTimeout, hpending, connectionTimeoutCallback, hs, hc]
    · have : (w.emit (.timeoutFired timer)).timerPending timer = false :=
        timerPending_of_fired timer _ (by simp)
      simp [fireTimeout, this]
  | false =>
    refine ⟨notify.error
      (.text ("Connection timeout: Unable to reach server at " ++ serverUrl)) none
      (w.emit (.timeoutFired timer)), ?_, rfl, by simp [notify.error], ?_⟩
    · simp [fireTimeout, hpending, connectionTimeoutCallback, hs, hc]
    · have : (notify.error
          (.text ("Connection timeout: Unable to reach server at " ++ serverUrl)) none
          (w.emit (.timeoutFired timer))).timerPending timer = false :=
        timerPending_of_fired timer _ (by simp [notify.error])
      simp [fireTimeout, this]

/-- C19 amended, on `connectingWorld`: the error is reported, once. -/
theorem timeout_reported_unless_connecting_witness :
    connectingWorld.mgr.socket = some ⟨false⟩ ∧ connectingWorld.timerPending 1 = true ∧
      ∃ w', fireTimeout 1 "http://localhost:3000" connectingWorld = .returned w' ∧
        w'.errors = [(.text
          "Connection timeout: Unable to reach server at http://localhost:3000", none)] :=
  ⟨by decide, by decide, by
    obtain ⟨w', hrun, _, hlog, _⟩ := timeout_reported_unless_connecting connectingWorld 1
      "http://localhost:3000" (by decide) (by decide)
    refine ⟨w', hrun, ?_⟩
    rw [World.errors, hlog]
    decide⟩

/-- `handleDisconnect` does not call `window.io`. -/
theorem ioCalls_handleDisconnect (w : World) : (handleDisconnect w).ioCalls = w.ioCalls := by
  have hmap : ∀ tracks : List Nat, (tracks.map Effect.trackStop).filterMap (fun e =>
      match e with
      | .io serverUrl options => some (serverUrl, options)
      | _ => none) = [] := by
    intro tracks
    induction tracks with
    | nil => rfl
    | cons t ts ih => simp [List.filterMap_cons]
  rw [handleDisconnect_eq]
  cases hp : w.mgr.peerConnection <;> cases hr : w.mgr.remoteStream <;>
    simp [World.ioCalls, handleDisconnectEffects, hp, hr, List.filterMap_append, hmap]

/-- The continuation of `initializeConnection` does not call `window.io`. -/
theorem ioCalls_initializeConnection_resume (w : World) :
    (initializeConnection_resume w).ioCalls = w.ioCalls := by
  rw [initializeConnection_resume_eq]
  simp [World.ioCalls, List.filterMap_append]

/-- `destroy` does not call `window.io`. -/
theorem ioCalls_destroy (w : World) : (destroy w).ioCalls = w.ioCalls := by
  rw [← ioCalls_handleDisconnect w, destroy_eq]
  cases (handleDisconnect w).mgr.connectionTimeout <;>
    cases (handleDisconnect w).mgr.socket <;>
    simp [World.ioCalls, List.filterMap_append]

/-- No call of the user calls `window.io`. -/
theorem ioCalls_call (c : Call) (st : World × Nat) : (c.run st).1.ioCalls = st.1.ioCalls := by
  cases c with
  | handleDisconnect => exact ioCalls_handleDisconnect st.1
  | destroy => exact ioCalls_destroy st.1
  | initializeConnection =>
    by_cases hs : st.1.mgr.socketConnected = true
    · cases hp : st.1.mgr.peerConnection with
      | none =>
        simpa [Call.run, initializeConnection, hs, hp] using
          ioCalls_initializeConnection_resume st.1
      | some old =>
        simpa [Call.run, initializeConnection, hs, hp] using ioCalls_handleDisconnect st.1
    · simp [Call.run, initializeConnection, hs, World.ioCalls, notify.error,
        List.filterMap_append]

/-- The microtask checkpoint does not call `window.io`. -/
theorem ioCalls_drainMicrotasks (n : Nat) (w : World) :
    (drainMicrotasks n w).ioCalls = w.ioCalls := by
  induction n generalizing w with
  | zero => rfl
  | succ n ih => rw [drainMicrotasks, ih, ioCalls_initializeConnection_resume]

/-- No task calls `window.io`. -/
theorem ioCalls_runTask (calls : List Call) (w : World) :
    (runTask calls w).ioCalls = w.ioCalls := by
  have hfold : ∀ (calls : List Call) (st : World × Nat),
      (calls.foldl (fun st c => c.run st) st).1.ioCalls = st.1.ioCalls := by
    intro calls
    induction calls with
    | nil => intro st; rfl
    | cons c cs ih =>
      intro st
      rw [List.foldl_cons, ih, ioCalls_call]
  rw [runTask, ioCalls_drainMicrotasks, hfold]

/-- No socket event makes the manager call `window.io`. -/
theorem ioCalls_fire (ev : SocketEvent) (w : World) : (ev.fire w).ioCalls = w.ioCalls := by
  cases ev with
  | connect =>
    cases hc : w.mgr.connectionTimeout <;>
      simp [SocketEvent.fire, SocketEvent.handler, hc, World.ioCalls, notify.success,
        List.filterMap_append]
  | device_disconnected =>
    simp only [SocketEvent.fire, SocketEvent.handler]
    rw [ioCalls_handleDisconnect]
    simp [World.ioCalls, notify.info, List.filterMap_append]
  | disconnect reason =>
    simp [SocketEvent.fire, SocketEvent.handler, handleDisconnectReason, World.ioCalls,
      notify.error, List.filterMap_append]
  | _ =>
    simp [SocketEvent.fire, SocketEvent.handler, World.ioCalls, notify.error, notify.info,
      notify.success, List.filterMap_append]

/-- The timer callback does not call `window.io`. -/
theorem ioCalls_connectionTimeoutCallback (serverUrl : String) (w : World) :
    (connectionTimeoutCallback serverUrl w).world.ioCalls = w.ioCalls := by
  cases hs : w.mgr.socket with
  | none => simp [connectionTimeoutCallback, hs, Outcome.world]
  | some socket =>
    obtain ⟨connected⟩ := socket
    cases connected <;> cases hi : w.mgr.isConnecting <;>
      simp [connectionTimeoutCallback, hs, hi, Outcome.world, World.ioCalls, notify.error,
        List.filterMap_append]

/-- No step of the manager calls `window.io`. -/
theorem ioCalls_step (step : Step) (w : World) : (step.run w).ioCalls = w.ioCalls := by
  cases step with
  | task calls => exact ioCalls_runTask calls w
  | socket ev => exact ioCalls_fire ev w
  | offer description =>
    cases hp : w.mgr.peerConnection <;>
      simp [Step.run, onOffer, hp, Async.world, handleError, notify.error, World.ioCalls,
        List.filterMap_append]
  | offerSettled parked result =>
    cases result <;> cases parked <;> cases hp : w.mgr.peerConnection <;>
      cases hs : w.mgr.socket <;>
      simp [Step.run, onOffer_resume, hp, hs, Async.world, handleError, notify.error,
        World.ioCalls, List.filterMap_append]
  | iceCandidate candidate =>
    cases hp : w.mgr.peerConnection <;>
      simp [Step.run, onIceCandidate, hp, Async.world, handleError, notify.error,
        World.ioCalls, List.filterMap_append]
  | iceCandidateSettled result =>
    cases result <;>
      simp [Step.run, onIceCandidate_resume, Async.world, handleError, notify.error,
        World.ioCalls, List.filterMap_append]
  | track pc stream =>
    by_cases hi : Effect.pcSetHandlers pc ∈ w.log <;> cases hv : w.videoElement <;>
      simp [Step.run, trackEvent, hi, ontrack, hv, handleError, notify.error, World.ioCalls,
        List.filterMap_append]
  | localCandidate pc candidate =>
    by_cases hi : Effect.pcSetHandlers pc ∈ w.log <;> cases candidate <;>
      cases hs : w.mgr.socket <;>
      simp [Step.run, iceCandidateEvent, hi, onicecandidate, hs, World.ioCalls,
        List.filterMap_append]
  | connectionState pc state =>
    cases hp : w.mgr.peerConnection with
    | none =>
      simp [Step.run, connectionStateChange, onconnectionstatechange, hp, Outcome.world,
        World.ioCalls]
    | some held =>
      by_cases hst : Function.update w.connectionState pc state held = .disconnected ∨
          Function.update w.connectionState pc state held = .failed ∨
          Function.update w.connectionState pc state held = .closed
      · simp only [Step.run, connectionStateChange, onconnectionstatechange, hp, hst,
          if_true, Outcome.world]
        rw [ioCalls_handleDisconnect]
        simp [World.ioCalls, notify.info, List.filterMap_append]
      · simp [Step.run, connectionStateChange, onconnectionstatechange, hp, hst,
          Outcome.world, World.ioCalls, notify.info, List.filterMap_append]
  | timeout timer serverUrl =>
    by_cases hpend : w.timerPending timer = true
    · simp only [Step.run, fireTimeout, hpend, if_true]
      rw [ioCalls_connectionTimeoutCallback]
      simp [World.ioCalls, List.filterMap_append]
    · simp [Step.run, fireTimeout, hpend, Outcome.world]

/-- No sequence of steps calls `window.io`. -/
theorem ioCalls_runSteps (steps : List Step) (w : World) :
    (runSteps steps w).ioCalls = w.ioCalls := by
  induction steps generalizing w with
  | nil => rfl
  | cons step steps ih =>
    simp only [runSteps, List.foldl_cons] at ih ⊢
    rw [ih, ioCalls_step]

/-- C20. The socket is opened with reconnection enabled and limited to 5
attempts. When the socket reports `reconnect_failed` the manager sets
`isConnecting` to false and its only effect is one error notification. After
that, whatever calls, messages, callbacks and timers follow, the manager does
not call `window.io` again: it opens no further connection. -/
theorem reconnection_budget (serverUrl : String) (w : World) (steps : List Step) :
    (initializeSocket serverUrl w).world.ioCalls = w.ioCalls ++
        [(serverUrl,
          { reconnection := true, reconnectionAttempts := 5, reconnectionDelay := 1000,
            timeout := 5000, autoConnect := true })] ∧
      (SocketEvent.reconnect_failed.fire w).mgr.isConnecting = false ∧
      (SocketEvent.reconnect_failed.fire w).log = w.log ++ [.notifyError (.text
        "Failed to reconnect after multiple attempts. Please try again later.") none] ∧
      (runSteps steps (SocketEvent.reconnect_failed.fire w)).ioCalls = w.ioCalls := by
  refine ⟨?_, rfl, rfl, ?_⟩
  · cases hio : w.ioError <;>
      simp [initializeSocket, hio, Outcome.world, World.ioCalls, notify.error,
        _setupSocketHandlers, _setupSocketErrorHandling, List.filterMap_append]
  · rw [ioCalls_runSteps, ioCalls_fire]

end ConnectionManager

/-! ## Destroy, disconnect reasons and local candidates -/

namespace ConnectionManager

/-- `destroy` on a manager that holds no connection, no stream and no socket:
only the event, the notification and the `clearTimeout` happen. -/
theorem destroy_of_released (w : World) (hp : w.mgr.peerConnection = none)
    (hr : w.mgr.remoteStream = none) (hs : w.mgr.socket = none) :
    destroy w =
      { w with
        videoElement := w.videoElement.map fun _ => none
        log := w.log ++
          [.dispatchEvent "deviceDisconnected", .notifyInfo "Disconnected from remote device"] ++
          w.mgr.connectionTimeout.toList.map Effect.clearTimeout } := by
  obtain ⟨⟨pc, rs, sock, ct, ic⟩, cs, np, nt, ve, ioe, log⟩ := w
  simp only at hp hr hs
  subst hp hr hs
  cases ct <;> cases ve <;> simp [destroy, handleDisconnect, World.emit, notify.info]

/-- C21. A first `destroy` calls `socket.disconnect()` when a socket is held
and leaves `socket`, `peerConnection` and `remoteStream` null. A further
`destroy` leaves the manager and the browser as the first one left them; its
only effects are the `deviceDisconnected` event, the info notification and a
repeated `clearTimeout` of the old timer, so it disconnects nothing, closes
nothing and reports no error. -/
theorem destroy_idempotent (w : World) :
    (destroy w).mgr.socket = none ∧ (destroy w).mgr.peerConnection = none ∧
      (destroy w).mgr.remoteStream = none ∧
      (w.mgr.socket ≠ none → Effect.socketDisconnect ∈ (destroy w).log.drop w.log.length) ∧
      (destroy (destroy w)).mgr = (destroy w).mgr ∧
      (destroy (destroy w)).connectionState = (destroy w).connectionState ∧
      (destroy (destroy w)).videoElement = (destroy w).videoElement ∧
      (destroy (destroy w)).nextPc = (destroy w).nextPc ∧
      (destroy (destroy w)).log = (destroy w).log ++
        [.dispatchEvent "deviceDisconnected", .notifyInfo "Disconnected from remote device"] ++
        w.mgr.connectionTimeout.toList.map Effect.clearTimeout := by
  have h1 : (destroy w).mgr =
      ⟨none, none, none, w.mgr.connectionTimeout, w.mgr.isConnecting⟩ := by
    rw [destroy_eq, handleDisconnect_eq]
  have hv : (destroy w).videoElement = w.videoElement.map fun _ => none := by
    rw [destroy_eq, handleDisconnect_eq]
  have h2 := destroy_of_released (destroy w) (by rw [h1]) (by rw [h1]) (by rw [h1])
  refine ⟨by rw [h1], by rw [h1], by rw [h1], ?_, ?_, ?_, ?_, ?_, ?_⟩
  · intro hs
    rw [destroy_eq, handleDisconnect_eq]
    cases hsock : w.mgr.socket with
    | none => exact absurd hsock hs
    | some socket => simp [hsock]
  · rw [h2]
  · rw [h2]
  · rw [h2, hv]
    cases w.videoElement <;> rfl
  · rw [h2]
  · rw [h2, h1]

/-- C21, on the manager of `sessionWorld`: the socket is disconnected once. -/
theorem destroy_idempotent_witness :
    sessionWorld.mgr.socket ≠ none ∧
      Effect.socketDisconnect ∈ (destroy sessionWorld).log.drop sessionWorld.log.length ∧
      (destroy (destroy sessionWorld)).log.count .socketDisconnect = 1 :=
  ⟨by decide, (destroy_idempotent sessionWorld).2.2.2.1 (by decide), by decide⟩

/-- C22 as stated fails. After `destroy` on the manager of `sessionWorld` the
ten socket handlers are still registered on the socket, and the callbacks are
still installed on connection 0. -/
theorem destroy_releases_handlers_counterexample :
    (destroy sessionWorld).mgr.socket = none ∧
      (destroy sessionWorld).socketHandlers =
        ["offer", "ice-candidate", "device-disconnected", "connect_error",
          "connect_timeout", "reconnect_attempt", "reconnect_failed", "reconnect",
          "disconnect", "connect"] ∧
      (destroy sessionWorld).pcHandlers = [0] := by
  decide

/-- C22, amended. `destroy` closes the held connection, stops the tracks,
clears the timer, disconnects the socket and drops the references of the
manager; it unregisters nothing: the handlers registered on the socket and
the callbacks installed on the peer connections are the same after it. -/
theorem destroy_unregisters_nothing (w : World) :
    (destroy w).socketHandlers = w.socketHandlers ∧
      (destroy w).pcHandlers = w.pcHandlers ∧
      (destroy w).log = w.log ++ handleDisconnectEffects w ++
        w.mgr.connectionTimeout.toList.map Effect.clearTimeout ++
        w.mgr.socket.toList.map fun _ => Effect.socketDisconnect := by
  have hlog : (destroy w).log = w.log ++ handleDisconnectEffects w ++
      w.mgr.connectionTimeout.toList.map Effect.clearTimeout ++
      w.mgr.socket.toList.map fun _ => Effect.socketDisconnect := by
    rw [destroy_eq, handleDisconnect_eq]
  have hon : ∀ tracks : List Nat, (tracks.map Effect.trackStop).filterMap (fun e =>
      match e with
      | .socketOn event => some event
      | _ => none) = [] := by
    intro tracks
    induction tracks with
    | nil => rfl
    | cons t ts ih => simp [List.filterMap_cons]
  have hpc : ∀ tracks : List Nat, (tracks.map Effect.trackStop).filterMap (fun e =>
      match e with
      | .pcSetHandlers pc => some pc
      | _ => none) = [] := by
    intro tracks
    induction tracks with
    | nil => rfl
    | cons t ts ih => simp [List.filterMap_cons]
  refine ⟨?_, ?_, hlog⟩
  · rw [World.socketHandlers, hlog]
    cases hp : w.mgr.peerConnection <;> cases hr : w.mgr.remoteStream <;>
      cases hc : w.mgr.connectionTimeout <;> cases hs : w.mgr.socket <;>
      simp [World.socketHandlers, handleDisconnectEffects, hp, hr, List.filterMap_append, hon]
  · rw [World.pcHandlers, hlog]
    cases hp : w.mgr.peerConnection <;> cases hr : w.mgr.remoteStream <;>
      cases hc : w.mgr.connectionTimeout <;> cases hs : w.mgr.socket <;>
      simp [World.pcHandlers, handleDisconnectEffects, hp, hr, List.filterMap_append, hpc]

/-- For a reason that is none of the five keys and no member of
`Object.prototype`, the message is the template string. -/
theorem handleDisconnectReason_other (reason : String) (w : World)
    (h5 : reason ∉ ["io server disconnect", "io client disconnect", "ping timeout",
      "transport close", "transport error"])
    (hproto : reason ∉ objectPrototypeMembers) :
    handleDisconnectReason reason w =
      notify.error (.text ("Disconnected: " ++ reason)) none w := by
  simp only [List.mem_cons, List.mem_singleton, List.not_mem_nil, or_false, not_or] at h5
  obtain ⟨h1, h2, h3, h4, h5⟩ := h5
  simp [handleDisconnectReason, h1, h2, h3, h4, h5, hproto]

/-- C28 (code defect). The reason constructor is none of the five keys of
`disconnectMessages`, but the lookup `disconnectMessages[reason]` finds the
member the object literal inherits from `Object.prototype`; it is truthy, so
the template string is not used and `notify.error` is called with that member,
which is a function and not a string. For a reason of the five, the fixed
text is reported. -/
theorem handleDisconnectReason_inherited_member :
    (handleDisconnectReason "constructor" sessionWorld).log =
        sessionWorld.log ++ [.notifyError (.inherited "constructor") none] ∧
      (handleDisconnectReason "toString" sessionWorld).errors =
        [(.inherited "toString", none)] ∧
      (handleDisconnectReason "ping timeout" sessionWorld).errors =
        [(.text "Connection timed out due to network issues.", none)] ∧
      (handleDisconnectReason "server shutting down" sessionWorld).errors =
        [(.text "Disconnected: server shutting down", none)] := by
  decide

/-- C29. A local ICE event is forwarded as one `ice-candidate` message with
the same candidate when the event has a candidate and the socket is there;
with a null candidate, or with a null socket, the callback does nothing, and
it does not throw. -/
theorem onicecandidate_forwards (w : World) (candidate : Option String) :
    (∀ c socket, candidate = some c → w.mgr.socket = some socket →
        onicecandidate candidate w =
          { w with log := w.log ++ [.socketEmit "ice-candidate" c] }) ∧
      (candidate = none → onicecandidate candidate w = w) ∧
      (w.mgr.socket = none → onicecandidate candidate w = w) := by
  refine ⟨?_, ?_, ?_⟩
  · intro c socket hc hs
    simp [onicecandidate, hc, hs, World.emit]
  · intro hc
    simp [onicecandidate, hc]
  · intro hs
    cases candidate <;> simp [onicecandidate, hs]

/-- C29, on the manager of `sessionWorld` and after its `destroy`. -/
theorem onicecandidate_forwards_witness :
    (onicecandidate (some "candidate") sessionWorld).emitted =
        [("ice-candidate", "candidate")] ∧
      onicecandidate none sessionWorld = sessionWorld ∧
      onicecandidate (some "candidate") (destroy sessionWorld) = destroy sessionWorld :=
  ⟨by
      rw [(onicecandidate_forwards sessionWorld (some "candidate")).1 "candidate" ⟨true⟩ rfl
        (by decide)]
      decide,
    (onicecandidate_forwards sessionWorld none).2.1 rfl,
    (onicecandidate_forwards (destroy sessionWorld) (some "candidate")).2.2 (by decide)⟩

end ConnectionManager

/-! ## The wait time of a queue entry -/

namespace QueueManager

/-- A number of seconds below 60, padded to two characters, is its two
decimal digits. -/
theorem padStart_seconds (s : Fin 60) :
    padStart (toString s.val) 2 '0' =
      String.mk [Nat.digitChar (s.val / 10), Nat.digitChar (s.val % 10)] := by
  revert s
  decide

/-- The claimed form of the result for `w` elapsed seconds: the decimal of
`w / 60`, a colon, and the two decimal digits of `w % 60`. -/
theorem formatted_of_seconds (n : Nat) :
    toString (((n : Int)).fdiv 60) ++ ":" ++ padStart (toString (((n : Int)).tmod 60)) 2 '0' =
      toString (n / 60) ++ ":" ++
        String.mk [Nat.digitChar (n % 60 / 10), Nat.digitChar (n % 60 % 10)] := by
  have hmin : ((n : Int)).fdiv 60 = ((n / 60 : Nat) : Int) := by
    rw [Int.fdiv_eq_ediv _ (by norm_num)]
    norm_cast
  have hsec : ((n : Int)).tmod 60 = ((n % 60 : Nat) : Int) := by
    rw [Int.tmod_eq_emod (by omega) (by norm_num)]
    norm_cast
  have hpad := padStart_seconds ⟨n % 60, Nat.mod_lt _ (by norm_num)⟩
  rw [hmin, hsec, ← hpad]
  rfl

/-- C30 (amended). A request time outside the range of `Date` gives
`"NaN:NaN"`. For a request time within the range, not later than the current
time and at most 2^53 ms before it, with `w` the whole number of elapsed
seconds, `_formatWaitTime` returns the decimal of `w / 60`, a colon, and the
two decimal digits of `w % 60`; and `60 * (w / 60) + w % 60 = w` with
`w % 60 < 60`. -/
theorem _formatWaitTime_minutes_seconds (now : TimeValue) (requestTime : Int) :
    ((requestTime < -8640000000000000 ∨ 8640000000000000 < requestTime) →
        _formatWaitTime now requestTime = "NaN:NaN") ∧
      (-8640000000000000 ≤ requestTime → requestTime ≤ now.ms →
        now.ms - requestTime ≤ 9007199254740992 →
        _formatWaitTime now requestTime =
            toString (((now.ms - requestTime) / 1000).toNat / 60) ++ ":" ++
              String.mk [Nat.digitChar (((now.ms - requestTime) / 1000).toNat % 60 / 10),
                Nat.digitChar (((now.ms - requestTime) / 1000).toNat % 60 % 10)] ∧
          60 * (((now.ms - requestTime) / 1000).toNat / 60) +
              ((now.ms - requestTime) / 1000).toNat % 60 =
            ((now.ms - requestTime) / 1000).toNat ∧
          ((now.ms - requestTime) / 1000).toNat % 60 < 60) := by
  refine ⟨?_, ?_⟩
  · intro h
    simp [_formatWaitTime, newDate, h]
  · intro hlow hle hexact
    have hup := now.inRange.2
    have hdate : newDate requestTime = some requestTime := by
      have : ¬ (requestTime < -8640000000000000 ∨ 8640000000000000 < requestTime) := by
        omega
      simp [newDate, this]
    have hround : roundToDouble (now.ms - requestTime) = now.ms - requestTime := by
      have : (now.ms - requestTime).natAbs ≤ 9007199254740992 := by omega
      simp [roundToDouble, this]
    have hd : 0 ≤ (now.ms - requestTime) / 1000 :=
      Int.ediv_nonneg (by omega) (by norm_num)
    obtain ⟨n, hn⟩ := Int.eq_ofNat_of_zero_le hd
    have hwait : (now.ms - requestTime).fdiv 1000 = (n : Int) := by
      rw [Int.fdiv_eq_ediv _ (by norm_num), hn]
    have htoNat : ((now.ms - requestTime) / 1000).toNat = n := by
      rw [hn]
      rfl
    refine ⟨?_, by omega, by omega⟩
    rw [htoNat]
    simp only [_formatWaitTime, hdate, hround, hwait]
    exact formatted_of_seconds n

/-- C30, two minutes and five seconds and a fraction after the request, and a
request time one millisecond past the end of the range. -/
theorem _formatWaitTime_minutes_seconds_witness :
    _formatWaitTime ⟨125999, by decide⟩ 0 = "2:05" ∧
      _formatWaitTime ⟨125999, by decide⟩ 8640000000000001 = "NaN:NaN" :=
  ⟨by
    rw [((_formatWaitTime_minutes_seconds ⟨125999, by decide⟩ 0).2 (by decide) (by decide)
      (by decide)).1]
    decide,
    (_formatWaitTime_minutes_seconds ⟨125999, by decide⟩ 8640000000000001).1
      (Or.inr (by decide))⟩

/-- C30 (counterexample). Request times not later than the current time for
which the result is not the minutes and seconds of the elapsed time. With a
request time one millisecond before the range of `Date` the result is
`"NaN:NaN"`, where 8640000000000 elapsed seconds would read
`"144000000000:00"`. With the current time at the end of the range and
9007199254741999 ms elapsed, an odd number above 2^53, the subtraction rounds
to 9007199254742000 and the result shows 2 seconds where the 9007199254741
elapsed seconds have 1. -/
theorem _formatWaitTime_not_minutes_seconds_counterexample :
    (-8640000000000001 : Int) ≤ (⟨0, by decide⟩ : TimeValue).ms ∧
      _formatWaitTime ⟨0, by decide⟩ (-8640000000000001) = "NaN:NaN" ∧
      (((0 : Int) - -8640000000000001) / 1000).toNat = 8640000000000 ∧
      toString (8640000000000 / 60) ++ ":" ++
          String.mk [Nat.digitChar (8640000000000 % 60 / 10),
            Nat.digitChar (8640000000000 % 60 % 10)] = "144000000000:00" ∧
      (-367199254741999 : Int) ≤ (⟨8640000000000000, by decide⟩ : TimeValue).ms ∧
      _formatWaitTime ⟨8640000000000000, by decide⟩ (-367199254741999) =
        "150119987579:02" ∧
      (((8640000000000000 : Int) - -367199254741999) / 1000).toNat = 9007199254741 ∧
      toString (9007199254741 / 60) ++ ":" ++
          String.mk [Nat.digitChar (9007199254741 % 60 / 10),
            Nat.digitChar (9007199254741 % 60 % 10)] = "150119987579:01" := by
  decide

end QueueManager

/-! ## After destroy -/

namespace ConnectionManager

/-- `destroy` creates no connection. -/
theorem created_destroy (w : World) : (destroy w).created = w.created := by
  rw [← created_handleDisconnect w, destroy_eq]
  cases (handleDisconnect w).mgr.connectionTimeout <;>
    cases (handleDisconnect w).mgr.socket <;>
    simp [World.created, List.filterMap_append]

/-- A call on a manager that holds no socket, no connection and no stream
parks nothing, creates no connection and leaves the three fields null. -/
theorem call_of_released (c : Call) (st : World × Nat)
    (hp : st.1.mgr.peerConnection = none) (hr : st.1.mgr.remoteStream = none)
    (hs : st.1.mgr.socket = none) :
    (c.run st).2 = st.2 ∧ (c.run st).1.mgr.peerConnection = none ∧
      (c.run st).1.mgr.remoteStream = none ∧ (c.run st).1.mgr.socket = none ∧
      (c.run st).1.created = st.1.created := by
  cases c with
  | initializeConnection =>
    have hc : st.1.mgr.socketConnected = false := by simp [socketConnected, hs]
    simp [Call.run, initializeConnection, hc, notify.error, hp, hr, hs, World.created,
      List.filterMap_append]
  | handleDisconnect =>
    refine ⟨rfl, ?_, ?_, ?_, created_handleDisconnect st.1⟩
    · simp only [Call.run]
      rw [handleDisconnect_eq]
    · simp only [Call.run]
      rw [handleDisconnect_eq]
    · simp only [Call.run]
      rw [handleDisconnect_eq]
      exact hs
  | destroy =>
    refine ⟨rfl, ?_, ?_, ?_, created_destroy st.1⟩
    · simp only [Call.run]
      rw [destroy_of_released st.1 hp hr hs]
      exact hp
    · simp only [Call.run]
      rw [destroy_of_released st.1 hp hr hs]
      exact hr
    · simp only [Call.run]
      rw [destroy_of_released st.1 hp hr hs]
      exact hs

/-- A task on a manager that holds no socket, no connection and no stream
leaves it so and creates no connection. -/
theorem runTask_of_released (calls : List Call) (w : World)
    (hp : w.mgr.peerConnection = none) (hr : w.mgr.remoteStream = none)
    (hs : w.mgr.socket = none) :
    (runTask calls w).mgr.peerConnection = none ∧ (runTask calls w).mgr.remoteStream = none ∧
      (runTask calls w).mgr.socket = none ∧ (runTask calls w).created = w.created := by
  have hfold : ∀ (calls : List Call) (st : World × Nat),
      st.1.mgr.peerConnection = none → st.1.mgr.remoteStream = none →
      st.1.mgr.socket = none →
      (calls.foldl (fun st c => c.run st) st).2 = st.2 ∧
        (calls.foldl (fun st c => c.run st) st).1.mgr.peerConnection = none ∧
        (calls.foldl (fun st c => c.run st) st).1.mgr.remoteStream = none ∧
        (calls.foldl (fun st c => c.run st) st).1.mgr.socket = none ∧
        (calls.foldl (fun st c => c.run st) st).1.created = st.1.created := by
    intro calls
    induction calls with
    | nil => intro st hp hr hs; exact ⟨rfl, hp, hr, hs, rfl⟩
    | cons c cs ih =>
      intro st hp hr hs
      obtain ⟨h2, hp', hr', hs', hc'⟩ := call_of_released c st hp hr hs
      obtain ⟨i2, ip, ir, is, ic⟩ := ih (c.run st) hp' hr' hs'
      rw [List.foldl_cons]
      exact ⟨i2.trans h2, ip, ir, is, ic.trans hc'⟩
  obtain ⟨h2, hp', hr', hs', hc'⟩ := hfold calls (w, 0) hp hr hs
  have hzero : (calls.foldl (fun st c => c.run st) (w, 0)).2 = 0 := h2
  simp only [runTask, hzero, drainMicrotasks]
  exact ⟨hp', hr', hs', hc'⟩

/-- After a `destroy` made while no continuation of `initializeConnection` is
parked, under every later sequence of tasks made of `initializeConnection`,
`handleDisconnect` and `destroy` calls (overlapping or not), `peerConnection`,
`remoteStream` and `socket` stay null and no peer connection is created; an
`initializeConnection` then is rejected with the connectivity error and
changes no field. -/
theorem destroy_terminal (w : World) (tasks : List (List Call)) :
    (runTasks tasks (destroy w)).mgr.peerConnection = none ∧
      (runTasks tasks (destroy w)).mgr.remoteStream = none ∧
      (runTasks tasks (destroy w)).mgr.socket = none ∧
      (runTasks tasks (destroy w)).created = w.created ∧
      initializeConnection (runTasks tasks (destroy w)) = .rejected
        ⟨"Not connected to server. Please ensure connection before initializing."⟩
        (notify.error (.text "Failed to initialize peer connection") (some
          ⟨"Not connected to server. Please ensure connection before initializing."⟩)
          (runTasks tasks (destroy w))) := by
  have hgen : ∀ (tasks : List (List Call)) (w₁ : World),
      w₁.mgr.peerConnection = none → w₁.mgr.remoteStream = none → w₁.mgr.socket = none →
      (runTasks tasks w₁).mgr.peerConnection = none ∧
        (runTasks tasks w₁).mgr.remoteStream = none ∧
        (runTasks tasks w₁).mgr.socket = none ∧
        (runTasks tasks w₁).created = w₁.created := by
    intro tasks
    induction tasks with
    | nil => intro w₁ hp hr hs; exact ⟨hp, hr, hs, rfl⟩
    | cons t ts ih =>
      intro w₁ hp hr hs
      obtain ⟨hp', hr', hs', hc'⟩ := runTask_of_released t w₁ hp hr hs
      obtain ⟨ip, ir, is, ic⟩ := ih (runTask t w₁) hp' hr' hs'
      simp only [runTasks, List.foldl_cons] at ip ir is ic ⊢
      exact ⟨ip, ir, is, ic.trans hc'⟩
  have hmgr : (destroy w).mgr =
      ⟨none, none, none, w.mgr.connectionTimeout, w.mgr.isConnecting⟩ := by
    rw [destroy_eq, handleDisconnect_eq]
  obtain ⟨hp, hr, hs, hc⟩ := hgen tasks (destroy w) (by rw [hmgr]) (by rw [hmgr])
    (by rw [hmgr])
  refine ⟨hp, hr, hs, hc.trans (created_destroy w), ?_⟩
  have hconn : (runTasks tasks (destroy w)).mgr.socketConnected = false := by
    simp [socketConnected, hs]
  simp [initializeConnection, hconn]

/-- C26 (code defect). `initializeConnection` and then `destroy` called in one
synchronous block on a manager that holds connection 0: the first call closes
connection 0 and parks at its `await`; `destroy` finds no connection and
releases the socket, so that when it returns `peerConnection`, `remoteStream`
and `socket` are null with one continuation parked; the continuation then
creates connection 1 and stores it in `peerConnection`. After `destroy` the
manager holds an un-closed connection and no socket. -/
theorem destroy_then_parked_continuation_creates_connection :
    (Call.destroy.run (Call.initializeConnection.run (sessionWorld, 0))).2 = 1 ∧
      (Call.destroy.run (Call.initializeConnection.run (sessionWorld, 0))).1.mgr.peerConnection
        = none ∧
      (Call.destroy.run (Call.initializeConnection.run (sessionWorld, 0))).1.mgr.remoteStream
        = none ∧
      (Call.destroy.run (Call.initializeConnection.run (sessionWorld, 0))).1.mgr.socket
        = none ∧
      (Call.destroy.run (Call.initializeConnection.run (sessionWorld, 0))).1.created = [0] ∧
      (runTask [.initializeConnection, .destroy] sessionWorld).mgr.socket = none ∧
      (runTask [.initializeConnection, .destroy] sessionWorld).mgr.peerConnection = some 1 ∧
      (runTask [.initializeConnection, .destroy] sessionWorld).created = [0, 1] ∧
      (runTask [.initializeConnection, .destroy] sessionWorld).closed = [0] ∧
      (runTask [.initializeConnection, .destroy] sessionWorld).unclosed = [1] := by
  decide

end ConnectionManager

/-! ## Input forwarding -/

/-- Registering a listener does not touch the input handler. -/
theorem App.addEventListener_inputHandler (target : Target) (type : String)
    (method : InputMethod) (app : App) :
    (app.addEventListener target type method).inputHandler = app.inputHandler := by
  unfold App.addEventListener
  simp only
  split <;> rfl

namespace InputHandler

/-- C23 as stated fails. The click handler of the renderer runs on a manager
whose socket has connected: `initializeConnection` creates connection 0 and
`startControl` follows at once. Connection 0 is in the state new, not
connected, and a mouse event and a key event are each forwarded as an
`input-event` message. -/
theorem input_forwarded_once_connected_counterexample :
    (handleConnect (App.initial (SocketEvent.connect.fire connectingWorld))).app.world.mgr.peerConnection
        = some 0 ∧
      (handleConnect (App.initial (SocketEvent.connect.fire
        connectingWorld))).app.world.connectionState 0 = .new ∧
      (handleConnect (App.initial (SocketEvent.connect.fire
        connectingWorld))).app.world.emitted = [] ∧
      ((handleConnect (App.initial (SocketEvent.connect.fire connectingWorld))).app.dispatch
        ⟨.screen, "mousedown", 3, 4, 0⟩).world.emitted =
          [("input-event", "touch mousedown 3 4")] ∧
      ((handleConnect (App.initial (SocketEvent.connect.fire connectingWorld))).app.dispatch
        ⟨.document, "keydown", 0, 0, 65⟩).world.emitted =
          [("input-event", "key 65 keydown")] := by
  decide

/-- C23, amended. An input event that reaches a handler of the `InputHandler`
is forwarded as one `input-event` message when the handler is controlling
(`isControlling` true: from `startControl` until `stopControl`), whatever the
state of the peer transport; when it is not controlling the event is dropped
silently: the handler returns at once, nothing is emitted and nothing is
thrown. -/
theorem input_forwarded_while_controlling (app : App) (event : DomEvent) :
    (startControl app).app.inputHandler.isControlling = true ∧
      (stopControl app).app.inputHandler.isControlling = false ∧
      (app.inputHandler.isControlling = false →
        _handleMouseEvent event app = .returned app ∧
          _handleKeyEvent event app = .returned app) ∧
      (app.inputHandler.isControlling = true → app.inputHandler.socket = true →
        _handleKeyEvent event app = .returned { app with
          world := app.world.emit (.socketEmit "input-event"
            ("key " ++ toString event.keyCode ++ " " ++ event.type)) } ∧
        (app.world.videoElement ≠ none →
          _handleMouseEvent event app = .returned { app with
            world := app.world.emit (.socketEmit "input-event"
              ("touch " ++ event.type ++ " " ++ toString event.x ++ " " ++
                toString event.y)) })) := by
  refine ⟨?_, ?_, ?_, ?_⟩
  · cases hv : app.world.videoElement <;>
      simp [startControl, _setupEventListeners, hv, AppOutcome.app,
        App.addEventListener_inputHandler]
  · cases hv : app.world.videoElement <;>
      simp [stopControl, _removeEventListeners, hv, AppOutcome.app, App.removeEventListener]
  · intro hc
    simp [_handleMouseEvent, _handleKeyEvent, hc]
  · intro hc hs
    refine ⟨by simp [_handleKeyEvent, hc, hs], ?_⟩
    intro hv
    cases hve : app.world.videoElement with
    | none => exact absurd hve hv
    | some v => simp [_handleMouseEvent, hc, hs, hve]

/-- C23 amended, in the renderer after `handleConnect` and after a
`stopControl` that follows. -/
theorem input_forwarded_while_controlling_witness :
    (handleConnect (App.initial (SocketEvent.connect.fire
        connectingWorld))).app.inputHandler.isControlling = true ∧
      (stopControl (handleConnect (App.initial (SocketEvent.connect.fire
        connectingWorld))).app).app.inputHandler.isControlling = false ∧
      _handleKeyEvent ⟨.document, "keydown", 0, 0, 65⟩
        (stopControl (handleConnect (App.initial (SocketEvent.connect.fire
          connectingWorld))).app).app =
        .returned (stopControl (handleConnect (App.initial (SocketEvent.connect.fire
          connectingWorld))).app).app :=
  ⟨by decide, by decide,
    ((input_forwarded_while_controlling
      (stopControl (handleConnect (App.initial (SocketEvent.connect.fire
        connectingWorld))).app).app ⟨.document, "keydown", 0, 0, 65⟩).2.2.1 (by decide)).2⟩

/-- C24 (code defect). `startControl`, `stopControl`, `startControl` on the
renderer of `sessionWorld`: `stopControl` removes no listener, because each
`bind(this)` in `_removeEventListeners` makes a new function object that was
never registered; the five listeners of the first `startControl` remain and
the second `startControl` adds five more. One mouse event then produces two
`input-event` messages, and so does one key event. -/
theorem stopControl_leaves_listeners :
    (startControl (App.initial sessionWorld)).app.listeners.length = 5 ∧
      (stopControl (startControl (App.initial sessionWorld)).app).app.listeners =
        (startControl (App.initial sessionWorld)).app.listeners ∧
      (startControl (stopControl (startControl
        (App.initial sessionWorld)).app).app).app.listeners.length = 10 ∧
      ((startControl (stopControl (startControl
        (App.initial sessionWorld)).app).app).app.dispatch
          ⟨.screen, "mousedown", 3, 4, 0⟩).world.emitted =
        [("input-event", "touch mousedown 3 4"), ("input-event", "touch mousedown 3 4")] ∧
      ((startControl (stopControl (startControl
        (App.initial sessionWorld)).app).app).app.dispatch
          ⟨.document, "keyup", 0, 0, 65⟩).world.emitted =
        [("input-event", "key 65 keyup"), ("input-event", "key 65 keyup")] := by
  decide

end InputHandler

/-! ## The timer and the socket -/

namespace World

/-- A timer is pending exactly when it has been set, not cleared and not
fired. -/
theorem timerPending_iff (timer : Nat) (w : World) :
    w.timerPending timer = true ↔
      (∃ ms, Effect.setTimeout timer ms ∈ w.log) ∧ Effect.clearTimeout timer ∉ w.log ∧
        Effect.timeoutFired timer ∉ w.log := by
  have hany : (w.log.any (fun e => match e with
      | .setTimeout t _ => t == timer
      | _ => false) = true) ↔ ∃ ms, Effect.setTimeout timer ms ∈ w.log := by
    rw [List.any_eq_true]
    constructor
    · rintro ⟨e, he, hmatch⟩
      cases e <;> simp at hmatch
      subst hmatch
      exact ⟨_, he⟩
    · rintro ⟨ms, he⟩
      exact ⟨_, he, by simp⟩
  unfold timerPending
  rw [Bool.and_eq_true, Bool.and_eq_true, hany]
  simp [and_assoc]

theorem Frame.refl (w : World) : Frame w w :=
  ⟨[], by simp, by simp, Or.inl rfl, Or.inl id⟩

theorem Frame.trans {w₁ w₂ w₃ : World} (h₁ : Frame w₁ w₂) (h₂ : Frame w₂ w₃) :
    Frame w₁ w₃ := by
  obtain ⟨es₁, hlog₁, hset₁, hct₁, hs₁⟩ := h₁
  obtain ⟨es₂, hlog₂, hset₂, hct₂, hs₂⟩ := h₂
  refine ⟨es₁ ++ es₂, by rw [hlog₂, hlog₁, List.append_assoc], ?_, ?_, ?_⟩
  · intro timer ms hmem
    rcases List.mem_append.mp hmem with h | h
    · exact hset₁ timer ms h
    · exact hset₂ timer ms h
  · rcases hct₁ with hct₁ | ⟨t, ht, hclear⟩
    · rcases hct₂ with hct₂ | ⟨t, ht, hclear⟩
      · exact Or.inl (hct₂.trans hct₁)
      · exact Or.inr ⟨t, by rw [← hct₁, ht], List.mem_append_right _ hclear⟩
    · exact Or.inr ⟨t, ht, List.mem_append_left _ hclear⟩
  · rcases hs₁ with hs₁ | hs₁
    · rcases hs₂ with hs₂ | hs₂
      · exact Or.inl fun h => hs₂ (hs₁ h)
      · refine Or.inr fun t ht => ?_
        rcases hct₁ with hct₁ | ⟨t', ht', hclear⟩
        · exact List.mem_append_right _ (hs₂ t (by rw [hct₁, ht]))
        · rw [ht] at ht'
          cases ht'
          exact List.mem_append_left _ hclear
    · exact Or.inr fun t ht => List.mem_append_left _ (hs₁ t ht)

/-- A run that only appends effects which start no timer, and keeps
`connectionTimeout` and the socket, continues the world. -/
theorem Frame.of_effects (w w' : World) (es : List Effect) (hlog : w'.log = w.log ++ es)
    (hset : ∀ timer ms, Effect.setTimeout timer ms ∉ es)
    (hct : w'.mgr.connectionTimeout = w.mgr.connectionTimeout)
    (hs : w.mgr.socket ≠ none → w'.mgr.socket ≠ none) : Frame w w' :=
  ⟨es, hlog, hset, Or.inl hct, Or.inl hs⟩

/-- Along a run no timer becomes pending. -/
theorem Frame.timerPending {w w' : World} (h : Frame w w') (timer : Nat)
    (hp : w'.timerPending timer = true) : w.timerPending timer = true := by
  obtain ⟨es, hlog, hset, -, -⟩ := h
  rw [timerPending_iff] at hp ⊢
  obtain ⟨⟨ms, hms⟩, hclear, hfired⟩ := hp
  rw [hlog] at hms hclear hfired
  refine ⟨⟨ms, ?_⟩, fun h => hclear (List.mem_append_left _ h),
    fun h => hfired (List.mem_append_left _ h)⟩
  rcases List.mem_append.mp hms with h | h
  · exact h
  · exact absurd h (hset timer ms)

/-- Along a run, a pending timer keeps `connectionTimeout` naming it and the
socket held, if that was so for every pending timer before. -/
theorem Frame.pending_socket {w w' : World} (h : Frame w w')
    (hinv : ∀ timer, w.timerPending timer = true →
      w.mgr.connectionTimeout = some timer ∧ w.mgr.socket ≠ none) :
    ∀ timer, w'.timerPending timer = true →
      w'.mgr.connectionTimeout = some timer ∧ w'.mgr.socket ≠ none := by
  intro timer hp
  obtain ⟨hct, hsock⟩ := hinv timer (h.timerPending timer hp)
  obtain ⟨es, hlog, -, hct', hs'⟩ := h
  have hnot : Effect.clearTimeout timer ∉ es := by
    intro hmem
    have := ((timerPending_iff timer w').mp hp).2.1
    exact this (by rw [hlog]; exact List.mem_append_right _ hmem)
  constructor
  · rcases hct' with hct' | ⟨t, ht, hclear⟩
    · rw [hct', hct]
    · rw [hct] at ht
      cases ht
      exact absurd hclear hnot
  · rcases hs' with hs' | hs'
    · exact hs' hsock
    · exact absurd (hs' timer hct) hnot

end World

namespace ConnectionManager

/-- One more effect that starts no timer continues the world. -/
theorem frame_emit (e : Effect) (w : World) (h : ∀ timer ms, e ≠ .setTimeout timer ms) :
    w.Frame (w.emit e) :=
  World.Frame.of_effects w _ [e] rfl
    (by
      intro timer ms hmem
      exact h timer ms (List.mem_singleton.mp hmem).symm)
    rfl id

/-- `handleDisconnect` starts no timer. -/
theorem setTimeout_not_mem_handleDisconnectEffects (w : World) (timer ms : Nat) :
    Effect.setTimeout timer ms ∉ handleDisconnectEffects w := by
  cases hp : w.mgr.peerConnection <;> cases hr : w.mgr.remoteStream <;>
    simp [handleDisconnectEffects, hp, hr]

theorem frame_handleDisconnect (w : World) : w.Frame (handleDisconnect w) :=
  World.Frame.of_effects w _ (handleDisconnectEffects w) (by rw [handleDisconnect_eq])
    (setTimeout_not_mem_handleDisconnectEffects w) (by rw [handleDisconnect_eq])
    (by rw [handleDisconnect_eq]; exact id)

theorem frame_initializeConnection_resume (w : World) :
    w.Frame (initializeConnection_resume w) :=
  World.Frame.of_effects w _ _ (by rw [initializeConnection_resume_eq]) (by simp)
    (by rw [initializeConnection_resume_eq]) (by rw [initializeConnection_resume_eq]; exact id)

/-- `destroy` drops the socket and clears the timer `connectionTimeout` names. -/
theorem frame_destroy (w : World) : w.Frame (destroy w) := by
  refine ⟨handleDisconnectEffects w ++
    w.mgr.connectionTimeout.toList.map Effect.clearTimeout ++
    w.mgr.socket.toList.map fun _ => Effect.socketDisconnect, ?_, ?_, ?_, ?_⟩
  · rw [destroy_eq, handleDisconnect_eq]
    simp [List.append_assoc]
  · intro timer ms hmem
    rcases List.mem_append.mp hmem with h | h
    · rcases List.mem_append.mp h with h | h
      · exact setTimeout_not_mem_handleDisconnectEffects w timer ms h
      · simp at h
    · simp at h
  · left
    rw [destroy_eq, handleDisconnect_eq]
  · right
    intro timer ht
    simp [ht]

theorem frame_initializeConnection (w : World) : w.Frame (initializeConnection w).world := by
  by_cases hs : w.mgr.socketConnected = true
  · cases hp : w.mgr.peerConnection with
    | none =>
      simpa [initializeConnection, hs, hp, Completion.world] using
        frame_initializeConnection_resume w
    | some old =>
      simpa [initializeConnection, hs, hp, Completion.world] using frame_handleDisconnect w
  · simpa [initializeConnection, hs, Completion.world, notify.error] using
      frame_emit (.notifyError (.text "Failed to initialize peer connection") (some
        ⟨"Not connected to server. Please ensure connection before initializing."⟩)) w
        (by simp)

theorem frame_call (c : Call) (st : World × Nat) : st.1.Frame (c.run st).1 := by
  cases c with
  | handleDisconnect => exact frame_handleDisconnect st.1
  | destroy => exact frame_destroy st.1
  | initializeConnection =>
    have h := frame_initializeConnection st.1
    simp only [Call.run]
    cases hrun : initializeConnection st.1 <;> simpa [hrun, Completion.world] using h

theorem frame_runTask (calls : List Call) (w : World) : w.Frame (runTask calls w) := by
  have hfold : ∀ (calls : List Call) (st : World × Nat),
      st.1.Frame (calls.foldl (fun st c => c.run st) st).1 := by
    intro calls
    induction calls with
    | nil => intro st; exact World.Frame.refl _
    | cons c cs ih =>
      intro st
      rw [List.foldl_cons]
      exact (frame_call c st).trans (ih (c.run st))
  have hdrain : ∀ (n : Nat) (w : World), w.Frame (drainMicrotasks n w) := by
    intro n
    induction n with
    | zero => intro w; exact World.Frame.refl _
    | succ n ih =>
      intro w
      rw [drainMicrotasks]
      exact (frame_initializeConnection_resume w).trans (ih _)
  exact (hfold calls (w, 0)).trans (hdrain _ _)

/-- The `connect` handler clears the timer `connectionTimeout` names; the
other handlers keep the field. -/
theorem frame_fire (ev : SocketEvent) (w : World) : w.Frame (ev.fire w) := by
  have hsock : ∀ f : Socket → Socket, w.mgr.socket ≠ none →
      (w.mgr.socket.map f) ≠ none := by
    intro f h
    cases hs : w.mgr.socket with
    | none => exact absurd hs h
    | some socket => simp
  cases ev with
  | connect =>
    cases hc : w.mgr.connectionTimeout with
    | none =>
      refine World.Frame.of_effects w _ [.notifySuccess "Connected to server successfully"]
        ?_ (by simp) ?_ ?_
      · simp [SocketEvent.fire, SocketEvent.handler, hc, notify.success]
      · simp [SocketEvent.fire, SocketEvent.handler, hc, notify.success]
      · simp [SocketEvent.fire, SocketEvent.handler, hc, notify.success]
    | some timer =>
      refine ⟨[.clearTimeout timer, .notifySuccess "Connected to server successfully"],
        ?_, by simp, Or.inr ⟨timer, hc, by simp⟩, Or.inr ?_⟩
      · simp [SocketEvent.fire, SocketEvent.handler, hc, notify.success]
      · intro t ht
        rw [hc] at ht
        cases ht
        simp
  | device_disconnected =>
    show w.Frame (handleDisconnect (notify.info "Remote device disconnected" _))
    refine World.Frame.trans ?_ (frame_handleDisconnect _)
    exact World.Frame.of_effects w _ [.notifyInfo "Remote device disconnected"] rfl (by simp)
      rfl (hsock _)
  | disconnect reason =>
    exact World.Frame.of_effects w _ _ rfl (by simp) rfl (hsock _)
  | connect_error error =>
    exact World.Frame.of_effects w _ _ rfl (by simp) rfl (hsock _)
  | connect_timeout =>
    exact World.Frame.of_effects w _ _ rfl (by simp) rfl (hsock _)
  | reconnect_attempt n =>
    exact World.Frame.of_effects w _ _ rfl (by simp) rfl (hsock _)
  | reconnect_failed =>
    exact World.Frame.of_effects w _ _ rfl (by simp) rfl (hsock _)
  | reconnect n =>
    exact World.Frame.of_effects w _ _ rfl (by simp) rfl (hsock _)

theorem frame_connectionTimeoutCallback (serverUrl : String) (w : World) :
    w.Frame (connectionTimeoutCallback serverUrl w).world := by
  cases hs : w.mgr.socket with
  | none =>
    simpa [connectionTimeoutCallback, hs, Outcome.world] using World.Frame.refl w
  | some socket =>
    obtain ⟨connected⟩ := socket
    cases connected <;> cases hi : w.mgr.isConnecting <;>
      simp only [connectionTimeoutCallback, hs, hi, Outcome.world, Bool.not_true,
        Bool.not_false, Bool.and_true, Bool.and_false, Bool.false_and, if_true, if_false,
        Bool.false_eq_true, Bool.true_and] <;>
      first
        | exact World.Frame.refl w
        | exact frame_emit _ w (by simp)

/-- Every step of the manager continues the world. -/
theorem frame_step (step : Step) (w : World) : w.Frame (step.run w) := by
  cases step with
  | task calls => exact frame_runTask calls w
  | socket ev => exact frame_fire ev w
  | offer description =>
    cases hp : w.mgr.peerConnection <;>
      simp only [Step.run, onOffer, hp, Async.world, handleError] <;>
      exact frame_emit _ w (by simp)
  | offerSettled parked result =>
    cases result <;> cases parked <;> cases hp : w.mgr.peerConnection <;>
      cases hs : w.mgr.socket <;>
      simp only [Step.run, onOffer_resume, hp, hs, Async.world, handleError] <;>
      exact frame_emit _ w (by simp)
  | iceCandidate candidate =>
    cases hp : w.mgr.peerConnection <;>
      simp only [Step.run, onIceCandidate, hp, Async.world, handleError] <;>
      exact frame_emit _ w (by simp)
  | iceCandidateSettled result =>
    cases result <;> simp only [Step.run, onIceCandidate_resume, Async.world, handleError]
    · exact World.Frame.refl w
    · exact frame_emit _ w (by simp)
  | track pc stream =>
    by_cases hi : Effect.pcSetHandlers pc ∈ w.log
    · cases hv : w.videoElement with
      | none =>
        simp only [Step.run, trackEvent, hi, if_true, ontrack, hv, handleError]
        exact World.Frame.of_effects w _
          [.notifyError (.text "Failed to handle incoming track")
            (some ⟨"Remote screen video element not found"⟩)] rfl (by simp) rfl id
      | some v =>
        simp only [Step.run, trackEvent, hi, if_true, ontrack, hv]
        exact World.Frame.of_effects w _ [] (by simp) (by simp) rfl id
    · simpa [Step.run, trackEvent, hi] using World.Frame.refl w
  | localCandidate pc candidate =>
    by_cases hi : Effect.pcSetHandlers pc ∈ w.log
    · cases candidate with
      | none => simpa [Step.run, iceCandidateEvent, hi, onicecandidate] using World.Frame.refl w
      | some c =>
        cases hs : w.mgr.socket with
        | none =>
          simpa [Step.run, iceCandidateEvent, hi, onicecandidate, hs] using World.Frame.refl w
        | some socket =>
          simpa [Step.run, iceCandidateEvent, hi, onicecandidate, hs] using
            frame_emit (.socketEmit "ice-candidate" c) w (by simp)
    · simpa [Step.run, iceCandidateEvent, hi] using World.Frame.refl w
  | connectionState pc state =>
    have h0 : w.Frame { w with connectionState := Function.update w.connectionState pc state } :=
      World.Frame.of_effects w _ [] (by simp) (by simp) rfl id
    cases hp : w.mgr.peerConnection with
    | none =>
      simpa [Step.run, connectionStateChange, onconnectionstatechange, hp, Outcome.world]
        using h0
    | some held =>
      have h1 := h0.trans (frame_emit (.notifyInfo ("WebRTC connection state: " ++
        (Function.update w.connectionState pc state held).toString))
        { w with connectionState := Function.update w.connectionState pc state } (by simp))
      by_cases hst : Function.update w.connectionState pc state held = .disconnected ∨
          Function.update w.connectionState pc state held = .failed ∨
          Function.update w.connectionState pc state held = .closed
      · simpa [Step.run, connectionStateChange, onconnectionstatechange, hp, hst,
          Outcome.world, notify.info] using h1.trans (frame_handleDisconnect _)
      · simpa [Step.run, connectionStateChange, onconnectionstatechange, hp, hst,
          Outcome.world, notify.info] using h1
  | timeout timer serverUrl =>
    by_cases hpend : w.timerPending timer = true
    · simp only [Step.run, fireTimeout, hpend, if_true]
      exact (frame_emit (.timeoutFired timer) w (by simp)).trans
        (frame_connectionTimeoutCallback serverUrl _)
    · simpa [Step.run, fireTimeout, hpend, Outcome.world] using World.Frame.refl w

theorem frame_runSteps (steps : List Step) (w : World) : w.Frame (runSteps steps w) := by
  induction steps generalizing w with
  | nil => exact World.Frame.refl w
  | cons step steps ih =>
    simp only [runSteps, List.foldl_cons] at ih ⊢
    exact (frame_step step w).trans (ih _)

end ConnectionManager

namespace ConnectionManager

/-- After the constructor, the only timer that can be pending is the one
`connectionTimeout` names, and then the socket is held. -/
theorem constructor_pending_socket (parseURL : String → Option JsError)
    (serverUrl : Option String) (videoElement : Option (Option MediaStream))
    (ioError : Option JsError) (timer : Nat)
    (hp : (constructor parseURL serverUrl
      (World.initial videoElement ioError)).world.timerPending timer = true) :
    (constructor parseURL serverUrl
        (World.initial videoElement ioError)).world.mgr.connectionTimeout = some timer ∧
      (constructor parseURL serverUrl
        (World.initial videoElement ioError)).world.mgr.socket ≠ none := by
  rw [World.timerPending_iff] at hp
  obtain ⟨⟨ms, hms⟩, -, -⟩ := hp
  cases hv : validateServerUrl parseURL serverUrl with
  | error e =>
    simp [constructor, hv, Outcome.world, notify.error, World.initial] at hms
  | ok u =>
    cases hio : ioError with
    | some e =>
      simp [constructor, hv, initializeSocket, hio, Outcome.world, notify.error,
        World.initial] at hms
    | none =>
      simp [constructor, hv, initializeSocket, hio, Outcome.world, World.initial,
        _setupSocketHandlers, _setupSocketErrorHandling] at hms ⊢
      exact hms.1.symm

/-- In every reachable world a pending timer is the one `connectionTimeout`
names, and the socket is held. -/
theorem reachable_pending_socket (parseURL : String → Option JsError)
    (serverUrl : Option String) (videoElement : Option (Option MediaStream))
    (ioError : Option JsError) (steps : List Step) (timer : Nat)
    (hp : (reachableWorld parseURL serverUrl videoElement ioError steps).timerPending timer
      = true) :
    (reachableWorld parseURL serverUrl videoElement ioError steps).mgr.connectionTimeout
        = some timer ∧
      (reachableWorld parseURL serverUrl videoElement ioError steps).mgr.socket ≠ none :=
  (frame_runSteps steps _).pending_socket
    (constructor_pending_socket parseURL serverUrl videoElement ioError) timer hp

/-- C25. In every reachable world, when the socket reports `connect` the
handler sets `connectionTimeout` to null and clears the timer it named. From
then on no timer is pending, whatever steps follow, so the timer callback never
runs and reports no connection-timeout error: a firing of the timer does
nothing. -/
theorem connect_cancels_timer (parseURL : String → Option JsError)
    (serverUrl : Option String) (videoElement : Option (Option MediaStream))
    (ioError : Option JsError) (before later : List Step) (t : Nat) (url : String) :
    (SocketEvent.connect.fire
        (reachableWorld parseURL serverUrl videoElement ioError before)).mgr.connectionTimeout
        = none ∧
      (∀ timer,
        (reachableWorld parseURL serverUrl videoElement ioError before).mgr.connectionTimeout
          = some timer →
        Effect.clearTimeout timer ∈ (SocketEvent.connect.fire
          (reachableWorld parseURL serverUrl videoElement ioError before)).log) ∧
      (runSteps later (SocketEvent.connect.fire
        (reachableWorld parseURL serverUrl videoElement ioError before))).timerPending t
        = false ∧
      fireTimeout t url (runSteps later (SocketEvent.connect.fire
          (reachableWorld parseURL serverUrl videoElement ioError before))) =
        .returned (runSteps later (SocketEvent.connect.fire
          (reachableWorld parseURL serverUrl videoElement ioError before))) := by
  generalize hw : reachableWorld parseURL serverUrl videoElement ioError before = w
  have hinv : ∀ timer, w.timerPending timer = true → w.mgr.connectionTimeout = some timer :=
    fun timer hp => (by
      rw [← hw] at hp ⊢
      exact (reachable_pending_socket parseURL serverUrl videoElement ioError before timer
        hp).1)
  have hclear : ∀ timer, w.mgr.connectionTimeout = some timer →
      Effect.clearTimeout timer ∈ (SocketEvent.connect.fire w).log := by
    intro timer hct
    simp [SocketEvent.fire, SocketEvent.handler, hct, notify.success]
  have hnone : ∀ t, (SocketEvent.connect.fire w).timerPending t = false := by
    intro t
    rw [Bool.eq_false_iff]
    intro hp
    have hbefore := (frame_fire .connect w).timerPending t hp
    exact ((World.timerPending_iff t _).mp hp).2.1 (hclear t (hinv t hbefore))
  have hlater : (runSteps later (SocketEvent.connect.fire w)).timerPending t = false := by
    rw [Bool.eq_false_iff]
    intro hp
    have := (frame_runSteps later _).timerPending t hp
    rw [hnone t] at this
    exact Bool.false_ne_true this
  refine ⟨?_, hclear, hlater, ?_⟩
  · cases hc : w.mgr.connectionTimeout <;>
      simp [SocketEvent.fire, SocketEvent.handler, hc, notify.success]
  · simp [fireTimeout, hlater]

/-- C27. In every reachable world, if a timer is pending then the socket is
not null, so the timer callback reads `this.socket.connected` of a socket
that is there: a firing of the timer returns and does not throw. -/
theorem timer_pending_socket_held (parseURL : String → Option JsError)
    (serverUrl : Option String) (videoElement : Option (Option MediaStream))
    (ioError : Option JsError) (steps : List Step) (timer : Nat) (url : String)
    (hp : (reachableWorld parseURL serverUrl videoElement ioError steps).timerPending timer
      = true) :
    (reachableWorld parseURL serverUrl videoElement ioError steps).mgr.socket ≠ none ∧
      ∃ w', fireTimeout timer url
        (reachableWorld parseURL serverUrl videoElement ioError steps) = .returned w' := by
  have hs := (reachable_pending_socket parseURL serverUrl videoElement ioError steps timer
    hp).2
  refine ⟨hs, ?_⟩
  generalize reachableWorld parseURL serverUrl videoElement ioError steps = w at hp hs
  cases hsock : w.mgr.socket with
  | none => exact absurd hsock hs
  | some socket =>
    by_cases hc : (!socket.connected && !w.mgr.isConnecting) = true
    · refine ⟨notify.error (.text ("Connection timeout: Unable to reach server at " ++ url))
        none (w.emit (.timeoutFired timer)), ?_⟩
      simp only [fireTimeout, hp, if_true, connectionTimeoutCallback, World.emit_mgr, hsock,
        hc]
    · refine ⟨w.emit (.timeoutFired timer), ?_⟩
      simp only [fireTimeout, hp, if_true, connectionTimeoutCallback, World.emit_mgr, hsock,
        hc, if_false]
      rfl

/-- C27, after a first reconnection attempt: the timer is pending and the
socket is held. -/
theorem timer_pending_socket_held_witness :
    (reachableWorld (fun _ => none) (some "http://localhost:3000") (some none) none
        [.socket (.reconnect_attempt 1)]).timerPending 1 = true ∧
      (reachableWorld (fun _ => none) (some "http://localhost:3000") (some none) none
        [.socket (.reconnect_attempt 1)]).mgr.socket ≠ none :=
  ⟨by decide,
    (timer_pending_socket_held (fun _ => none) (some "http://localhost:3000") (some none) none
      [.socket (.reconnect_attempt 1)] 1 "http://localhost:3000" (by decide)).1⟩

end ConnectionManager
